import Mathlib

/-!
Shallow embedding of the Alpha Vantage caching proxy route
(`src/app/api/av/route.ts` and the `fallbackResponse` revision of the same
route). JavaScript JSON values are modelled by an inductive `Json` type,
JS truthiness by `truthy`, the filesystem-backed disk cache and fixture
store by association lists from file names to file contents, and the
in-memory cache by an association list from cache keys to entries.
Time is an integer (milliseconds); within a single request handler run the
clock is frozen at the request's `now`, matching the synchronous reading of
the code. The upstream `fetch` call is an oracle parameter (`FetchOutcome`).
-/

namespace AvProxy

/-- JSON values as produced by `JSON.parse` (numbers modelled as integers:
all numeric values used by the route are timestamps and status codes). -/
inductive Json where
  | null : Json
  | bool : Bool → Json
  | num : Int → Json
  | str : String → Json
  | arr : List Json → Json
  | obj : List (String × Json) → Json

/-- JavaScript truthiness of a JSON value (`if (x)`); `null`, `false`, `0`
and `""` are falsy, arrays and objects are always truthy. -/
def truthy : Json → Bool
  | .null => false
  | .bool b => b
  | .num n => n ≠ 0
  | .str s => s ≠ ""
  | .arr _ => true
  | .obj _ => true

/-- Association-list lookup with string keys (models `Map.get` and JS
object property access on the explicitly listed fields). -/
def assocGet {α : Type} : List (String × α) → String → Option α
  | [], _ => none
  | (k, v) :: rest, key => if k = key then some v else assocGet rest key

/-- Association-list update (models `Map.set`: replace the binding if the
key is present, append it otherwise). -/
def assocSet {α : Type} : List (String × α) → String → α → List (String × α)
  | [], key, v => [(key, v)]
  | (k, w) :: rest, key, v =>
    if k = key then (key, v) :: rest else (k, w) :: assocSet rest key v

/-- Property access `v?.field`: defined only on objects, `none` models
JS `undefined` (missing property or non-object receiver). -/
def jget (v : Json) (field : String) : Option Json :=
  match v with
  | .obj fields => assocGet fields field
  | _ => none

/-- Truthiness of a possibly-undefined value (`if (x)` where `x` may be
`undefined`). -/
def truthyOpt : Option Json → Bool
  | none => false
  | some v => truthy v

/-- Nullish test used by the `??` operator: `undefined` and `null` are
nullish, every other value is not. -/
def nullish : Option Json → Bool
  | none => true
  | some .null => true
  | some _ => false

mutual
/-- Shallow model of the JS `String(x)` conversion for JSON values. -/
def jsToString : Json → String
  | .null => "null"
  | .bool true => "true"
  | .bool false => "false"
  | .num n => toString n
  | .str s => s
  | .arr xs => jsToStringList xs
  | .obj _ => "[object Object]"

/-- Elements of an array joined by commas, as in JS array-to-string. -/
def jsToStringList : List Json → String
  | [] => ""
  | [x] => jsToString x
  | x :: xs => jsToString x ++ "," ++ jsToStringList xs
end

/-- String conversion of a possibly-undefined value (`String(x)`). -/
def jstr : Option Json → String
  | none => "undefined"
  | some v => jsToString v

/-! ### Validation (`ALLOWED_FUNCTIONS`, `SYMBOL_RE`) -/

/-- The two supported operations, as the strings the route compares against
(`ALLOWED_FUNCTIONS = new Set(["OVERVIEW", "TIME_SERIES_DAILY"])`). -/
def ALLOWED_FUNCTIONS : List String := ["OVERVIEW", "TIME_SERIES_DAILY"]

/-- One character of the symbol pattern: the class `[A-Z0-9.\x2d]`. -/
def symbolCharOk (c : Char) : Bool :=
  (Char.ofNat 65 ≤ c ∧ c ≤ Char.ofNat 90) ∨
  (Char.ofNat 48 ≤ c ∧ c ≤ Char.ofNat 57) ∨
  c = Char.ofNat 46 ∨ c = Char.ofNat 45

/-- Test of a string against `SYMBOL_RE = /^[A-Z0-9.\x2d]{1,10}$/`. -/
def SYMBOL_RE_test (s : String) : Bool :=
  1 ≤ s.length ∧ s.length ≤ 10 ∧ s.data.all symbolCharOk

/-- ASCII uppercase mapping of one character, as `toUpperCase()` acts on
the ASCII range (the only range that can interact with the symbol pattern
and the operation allow-list). -/
def jsToUpperChar (c : Char) : Char :=
  if Char.ofNat 97 ≤ c ∧ c ≤ Char.ofNat 122 then Char.ofNat (c.toNat - 32) else c

/-- Model of `str.toUpperCase()`. -/
def jsToUpper (s : String) : String := String.mk (s.data.map jsToUpperChar)

/-- Reading of a query parameter as the route does:
`searchParams.get(name)?.toUpperCase()` followed by the `?? ""` /
falsy-undefined handling in the guards (an absent parameter behaves exactly
like the empty string in every guard of the route). -/
def normalizeParam (p : Option String) : String :=
  (p.map jsToUpper).getD ""

/-- TTL in seconds as a function of the operation string
(`fn === "OVERVIEW" ? 24*60*60 : 60*60`). -/
def ttlSeconds (fn : String) : Nat :=
  if fn = "OVERVIEW" then 24 * 60 * 60 else 60 * 60

/-- TTL in milliseconds (`ttlSeconds(fn) * 1000`). -/
def ttlMsOf (fn : String) : Int := (ttlSeconds fn : Int) * 1000

/-- Cache key for the in-memory cache: the template string `fn:symbol`. -/
def cacheKey (fn symbol : String) : String := fn ++ ":" ++ symbol

/-- Disk/fixture file name for a key: the template `fn__symbol.json`. -/
def diskFileName (fn symbol : String) : String := fn ++ "__" ++ symbol ++ ".json"

/-! ### Disk cache and fixture store -/

/-- Content of one file as far as the route can observe it: either it
parses as a JSON value, or `JSON.parse` throws on it. A missing or
unreadable file is modelled by the absence of a binding in the `Disk`
association list (both are caught and mapped to `null` by the readers). -/
inductive DiskFile where
  | json : Json → DiskFile
  | corrupt : DiskFile

/-- A directory of files, keyed by file name. -/
def Disk : Type := List (String × DiskFile)

/-- File-system read: `none` models a missing file or a read error. -/
def diskRead (d : Disk) (name : String) : Option DiskFile := assocGet d name

/-- File-system write of a JSON document. -/
def diskWrite (d : Disk) (name : String) (v : Json) : Disk :=
  assocSet d name (.json v)

/-- The parsed disk-cache record as the route uses it: only `savedAt` is
validated (`typeof parsed.savedAt !== "number"`), and only `savedAt` and
`payload` are ever read afterwards; `payload := none` models a record whose
`payload` property is missing (`undefined`). -/
structure DiskCacheRecord where
  savedAt : Int
  payload : Option Json

/-- Decoding step of `readDiskCache` after a successful `JSON.parse`:
`if (!parsed || typeof parsed.savedAt !== "number") return null;
return parsed;`. -/
def decodeDiskRecord (v : Json) : Option DiskCacheRecord :=
  if truthy v then
    match jget v "savedAt" with
    | some (.num n) => some { savedAt := n, payload := jget v "payload" }
    | _ => none
  else none

/-- Model of `readDiskCache`: a missing/unreadable file, a body that does
not parse as JSON, or a parsed value without a numeric `savedAt` all yield
`null`; otherwise the parsed record is returned regardless of age. -/
def readDiskCache (file : Option DiskFile) : Option DiskCacheRecord :=
  match file with
  | none => none
  | some .corrupt => none
  | some (.json v) => decodeDiskRecord v

/-- The JSON document `writeDiskCache` serializes:
`{ savedAt, fn, symbol, payload }`; a `payload` that is `undefined` is
dropped by `JSON.stringify`, hence the optional field. -/
def encodeDiskRecord (savedAt : Int) (fn symbol : String) (payload : Option Json) : Json :=
  .obj ([("savedAt", .num savedAt), ("fn", .str fn), ("symbol", .str symbol)] ++
    (match payload with
     | some p => [("payload", p)]
     | none => []))

/-- Model of `writeDiskCache`: best-effort — when the write fails
(`writeOk = false`, covering `mkdir`/`writeFile` errors) the disk is left
unchanged and no error escapes; otherwise the record is stored under the
key's file name with `savedAt` set to the current time. -/
def writeDiskCache (writeOk : Bool) (d : Disk) (fn symbol : String)
    (payload : Option Json) (now : Int) : Disk :=
  if writeOk then
    diskWrite d (diskFileName fn symbol) (encodeDiskRecord now fn symbol payload)
  else d

/-- Model of `readFixture`: parse the fixture file; a parsed object with a
`payload` property yields that property's value, any other parsed value is
returned as-is; a missing/unreadable/non-JSON file yields `null` (`none`). -/
def readFixture (file : Option DiskFile) : Option Json :=
  match file with
  | none => none
  | some .corrupt => none
  | some (.json parsed) =>
    match parsed with
    | .obj fields =>
      if truthy (.obj fields) then
        match assocGet fields "payload" with
        | some p => some p
        | none => some (.obj fields)
      else some (.obj fields)
    | v => some v

/-! ### In-memory cache -/

/-- Memory-cache entry of `src/app/api/av/route.ts`
(`{ expiresAt, payload }`); `payload := none` models a stored `undefined`. -/
structure CacheEntry where
  expiresAt : Int
  payload : Option Json

/-- Memory-cache entry of the `fallbackResponse` revision
(`{ expiresAt, payload, source }`). -/
structure CacheEntryB where
  expiresAt : Int
  payload : Option Json
  source : String

/-- The in-memory cache: a map from cache key to entry, generic in the
entry shape so both route revisions share the model. -/
def MemCache (ε : Type) : Type := List (String × ε)

/-- Lookup in the memory cache (`memCache.get(key)`). -/
def memGet {ε : Type} (m : MemCache ε) (key : String) : Option ε := assocGet m key

/-- Write to the memory cache (`memCache.set(key, entry)`). -/
def memSet {ε : Type} (m : MemCache ε) (key : String) (e : ε) : MemCache ε :=
  assocSet m key e

/-! ### Response envelope and upstream outcome -/

/-- Observable response: the JSON body fields (each optional field is
`none` when the corresponding property is absent from the literal at the
return site), the HTTP status, and the headers the route sets. -/
structure ApiResponse where
  status : Nat
  ok : Bool
  error : Option String
  data : Option Json
  cached : Option Bool
  stale : Option Bool
  source : Option String
  warning : Option String
  retryAfter : Option String
  cacheControl : Option String
  xDataSource : Option String

/-- Response with only a status, everything else absent: the base every
return site fills in (`NextResponse.json` defaults to status 200). -/
def baseResponse : ApiResponse :=
  { status := 200, ok := false, error := none, data := none, cached := none,
    stale := none, source := none, warning := none, retryAfter := none,
    cacheControl := none, xDataSource := none }

/-- Model of the `jsonError` helper:
`NextResponse.json({ ok: false, error: message }, { status })` (the route
never passes extra headers through this helper). -/
def jsonError (message : String) (status : Nat) : ApiResponse :=
  { baseResponse with status := status, ok := false, error := some message }

/-- The raw upstream HTTP response: `res.ok`, `res.status`, and the body
after `res.text()` and the JSON-parse attempt (`none` = not JSON). -/
structure UpstreamResponse where
  httpOk : Bool
  status : Nat
  body : Option Json

/-- Outcome of the scheduled `fetch`: a response, an `AbortError` thrown by
the 10s timeout, or any other thrown transport failure. -/
inductive FetchOutcome where
  | response : UpstreamResponse → FetchOutcome
  | abort : FetchOutcome
  | failure : FetchOutcome

/-- The throttle marker expression `data?.Note ?? data?.Information`. -/
def throttleOf (data : Json) : Option Json :=
  if nullish (jget data "Note") then jget data "Information" else jget data "Note"

/-! ### Upstream scheduler (`scheduleAlphaVantageCall`) -/

/-- One pass through the scheduler's critical section, for a caller that
acquires the lane at time `now` when the stored `__avLastCallAt` is
`lastCallAt` and whose upstream call takes `dur` ms: it sleeps
`max 0 (lastCallAt + 1100 - now)`, then stores `Date.now()` into
`__avLastCallAt` (this happens before `fn()` runs), performs the call, and
releases the lane when the call completes. -/
structure SchedStep where
  start : Int
  recordedAt : Int
  finish : Int

/-- The scheduler's critical section as executed by the code: the wait is
computed from the stored `__avLastCallAt`, the store happens after the
sleep and before the call. -/
def schedStep (lastCallAt now dur : Int) : SchedStep :=
  let waitMs := max 0 (lastCallAt + 1100 - now)
  let start := now + waitMs
  { start := start, recordedAt := start, finish := start + dur }

/-- A full run of the lane over a FIFO queue of already-arrived callers
(each next caller's `await prev` resolves when the previous caller's
`finally { release() }` runs, i.e. at the previous call's finish time),
given the initial stored `__avLastCallAt` and the time the first caller
acquires the lane. -/
def schedRun (lastCallAt now : Int) : List Int → List SchedStep
  | [] => []
  | d :: ds =>
    let s := schedStep lastCallAt now d
    s :: schedRun s.recordedAt s.finish ds

/-! ### Route handlers -/

/-- Result of one handler run: the HTTP response, the final shared state,
and ghost observation flags recording which side effects the run attempted
(`calledUpstream`: the fetch was issued; `readMem`/`readDisk`: the
respective cache was read; `wroteDisk`: a disk write was attempted,
successful or not). -/
structure GetResult (ε : Type) where
  resp : ApiResponse
  memCache : MemCache ε
  disk : Disk
  calledUpstream : Bool
  readMem : Bool
  readDisk : Bool
  wroteDisk : Bool

/-- Stale-disk response of `src/app/api/av/route.ts`: note the body says
`source: "disk"` while the header says `X-Data-Source: disk-stale`. -/
def staleRespA (warning : String) (data : Option Json) (retryAfter : Option String) :
    ApiResponse :=
  { baseResponse with
      ok := true
      cached := some true
      stale := some true
      source := some "disk"
      warning := some warning
      data := data
      xDataSource := some "disk-stale"
      retryAfter := retryAfter }

/-- Upstream stage of `src/app/api/av/route.ts` (the `try`/`catch` block):
classify the fetch outcome, preferring the retained `staleCandidate` (the
stale disk payload kept from the disk check) on every failure, and on
success write through both caches. -/
def upstreamA (fn symbol key : String) (ttlMs now : Int) (fetch : FetchOutcome)
    (writeOk : Bool) (memCache : MemCache CacheEntry) (disk : Disk)
    (staleCandidate : Option Json) : GetResult CacheEntry :=
  match fetch with
  | .abort =>
    if truthyOpt staleCandidate then
      { resp := staleRespA "Upstream timed out." staleCandidate none,
        memCache := memCache, disk := disk,
        calledUpstream := true, readMem := true, readDisk := true, wroteDisk := false }
    else
      { resp := jsonError "Upstream request timed out." 504,
        memCache := memCache, disk := disk,
        calledUpstream := true, readMem := true, readDisk := true, wroteDisk := false }
  | .failure =>
    if truthyOpt staleCandidate then
      { resp := staleRespA "Upstream fetch failed." staleCandidate none,
        memCache := memCache, disk := disk,
        calledUpstream := true, readMem := true, readDisk := true, wroteDisk := false }
    else
      { resp := jsonError "Failed to fetch from Alpha Vantage." 502,
        memCache := memCache, disk := disk,
        calledUpstream := true, readMem := true, readDisk := true, wroteDisk := false }
  | .response res =>
    match res.body with
    | none =>
      if truthyOpt staleCandidate then
        { resp := staleRespA "Upstream returned non-JSON; served cached data."
            staleCandidate none,
          memCache := memCache, disk := disk,
          calledUpstream := true, readMem := true, readDisk := true, wroteDisk := false }
      else
        { resp := jsonError "Upstream returned non-JSON response." 502,
          memCache := memCache, disk := disk,
          calledUpstream := true, readMem := true, readDisk := true, wroteDisk := false }
    | some data =>
      let throttleMsg := throttleOf data
      if truthyOpt throttleMsg then
        if truthyOpt staleCandidate then
          { resp := staleRespA (jstr throttleMsg) staleCandidate (some "1"),
            memCache := memCache, disk := disk,
            calledUpstream := true, readMem := true, readDisk := true, wroteDisk := false }
        else
          { resp := { baseResponse with
                status := 429
                ok := false
                error := some (jstr throttleMsg)
                retryAfter := some "1" },
            memCache := memCache, disk := disk,
            calledUpstream := true, readMem := true, readDisk := true, wroteDisk := false }
      else if truthyOpt (jget data "Error Message") then
        if truthyOpt staleCandidate then
          { resp := staleRespA ("Alpha Vantage error: " ++ jstr (jget data "Error Message"))
              staleCandidate none,
            memCache := memCache, disk := disk,
            calledUpstream := true, readMem := true, readDisk := true, wroteDisk := false }
        else
          { resp := jsonError ("Alpha Vantage error: " ++ jstr (jget data "Error Message")) 502,
            memCache := memCache, disk := disk,
            calledUpstream := true, readMem := true, readDisk := true, wroteDisk := false }
      else if !res.httpOk then
        if truthyOpt staleCandidate then
          { resp := staleRespA ("Upstream HTTP " ++ toString res.status ++ "; served cached data.")
              staleCandidate none,
            memCache := memCache, disk := disk,
            calledUpstream := true, readMem := true, readDisk := true, wroteDisk := false }
        else
          { resp := jsonError ("Upstream HTTP " ++ toString res.status) 502,
            memCache := memCache, disk := disk,
            calledUpstream := true, readMem := true, readDisk := true, wroteDisk := false }
      else
        { resp := { baseResponse with
              ok := true
              cached := some false
              source := some "upstream"
              data := some data
              cacheControl := some ("public, max-age=0, s-maxage=" ++ toString (ttlSeconds fn)) },
          memCache := memSet memCache key { expiresAt := now + ttlMs, payload := some data },
          disk := writeDiskCache writeOk disk fn symbol (some data) now,
          calledUpstream := true, readMem := true, readDisk := true, wroteDisk := true }

/-- Disk-cache stage of `GET` in `src/app/api/av/route.ts` (reached on a
memory miss): a fresh disk record is a terminal `source="disk"` hit with a
memory rehydration; otherwise the record's payload (or nothing) is retained
as the `staleCandidate` for the upstream stage. -/
def diskStageA (fn symbol key : String) (ttlMs now : Int) (fetch : FetchOutcome)
    (writeOk : Bool) (memCache : MemCache CacheEntry) (disk : Disk) :
    GetResult CacheEntry :=
  match readDiskCache (diskRead disk (diskFileName fn symbol)) with
  | some r =>
    if now - r.savedAt ≤ ttlMs then
      { resp := { baseResponse with
            ok := true
            cached := some true
            source := some "disk"
            data := r.payload
            cacheControl := some ("public, max-age=0, s-maxage=" ++ toString (ttlSeconds fn)) },
        memCache := memSet memCache key { expiresAt := now + ttlMs, payload := r.payload },
        disk := disk,
        calledUpstream := false, readMem := true, readDisk := true, wroteDisk := false }
    else
      upstreamA fn symbol key ttlMs now fetch writeOk memCache disk r.payload
  | none =>
    upstreamA fn symbol key ttlMs now fetch writeOk memCache disk none

/-- Memory-cache stage of `GET` in `src/app/api/av/route.ts` (reached once
validation passed): an unexpired entry is a terminal `source="memory"` hit
(with an opportunistic disk persist); otherwise the disk stage runs. -/
def memStageA (fn symbol key : String) (ttlMs now : Int) (fetch : FetchOutcome)
    (writeOk : Bool) (memCache : MemCache CacheEntry) (disk : Disk) :
    GetResult CacheEntry :=
  let afterMem := diskStageA fn symbol key ttlMs now fetch writeOk memCache disk
  match memGet memCache key with
  | some memHit =>
    if memHit.expiresAt > now then
      { resp := { baseResponse with
            ok := true
            cached := some true
            source := some "memory"
            data := memHit.payload
            cacheControl := some "public, max-age=0, s-maxage=60" },
        memCache := memCache,
        disk := writeDiskCache writeOk disk fn symbol memHit.payload now,
        calledUpstream := false, readMem := true, readDisk := false, wroteDisk := true }
    else afterMem
  | none => afterMem

/-- Model of `GET` in `src/app/api/av/route.ts`: credential check, input
validation, memory-cache check, disk-cache check (fresh hit or stale
candidate), then the upstream stage. `fetch` is the outcome the network
would produce if the upstream call is made; `writeOk` tells whether disk
writes succeed. -/
def GET_A (apiKey fnRaw symbolRaw : Option String) (now : Int)
    (fetch : FetchOutcome) (writeOk : Bool)
    (memCache : MemCache CacheEntry) (disk : Disk) : GetResult CacheEntry :=
  match apiKey with
  | none =>
    { resp := jsonError "Server misconfigured: missing ALPHAVANTAGE_API_KEY" 500,
      memCache := memCache, disk := disk,
      calledUpstream := false, readMem := false, readDisk := false, wroteDisk := false }
  | some _ =>
    let fn := normalizeParam fnRaw
    let symbol := normalizeParam symbolRaw
    if !ALLOWED_FUNCTIONS.contains fn then
      { resp := jsonError "Invalid 'function'. Use OVERVIEW or TIME_SERIES_DAILY." 400,
        memCache := memCache, disk := disk,
        calledUpstream := false, readMem := false, readDisk := false, wroteDisk := false }
    else if symbol = "" || !SYMBOL_RE_test symbol then
      { resp := jsonError "Invalid 'symbol'. Example: MSFT, AAPL, BRK.B" 400,
        memCache := memCache, disk := disk,
        calledUpstream := false, readMem := false, readDisk := false, wroteDisk := false }
    else
      memStageA fn symbol (cacheKey fn symbol) (ttlMsOf fn) now fetch writeOk
        memCache disk

/-! ### Fallback orchestrator (`fallbackResponse`) and the network-first
route revision (`GET_B`) -/

/-- Result of `fallbackResponse`: the chosen degraded response (`none` when
nothing is available) and the shared state it leaves behind, plus ghost
flags mirroring the ones of `GetResult`. -/
structure FallbackResult where
  resp : Option ApiResponse
  memCache : MemCache CacheEntryB
  disk : Disk
  readMem : Bool
  wroteDisk : Bool

/-- Memory stage of `fallbackResponse` (the absolute last resort): a
memory entry with a truthy payload (`if (memHit?.payload)`, even if
logically expired) is served as `source="memory"`; otherwise nothing. -/
def fallbackMemStage (key : String) (warning : String)
    (memCache : MemCache CacheEntryB) (disk : Disk) : FallbackResult :=
  match memGet memCache key with
  | some memHit =>
    match memHit.payload with
    | some mp =>
      if truthy mp then
        { resp := some { baseResponse with
            ok := true
            cached := some true
            stale := some true
            source := some "memory"
            warning := some warning
            data := some mp
            xDataSource := some "memory" },
          memCache := memCache, disk := disk, readMem := true, wroteDisk := false }
      else
        { resp := none, memCache := memCache, disk := disk,
          readMem := true, wroteDisk := false }
    | none =>
      { resp := none, memCache := memCache, disk := disk,
        readMem := true, wroteDisk := false }
  | none =>
    { resp := none, memCache := memCache, disk := disk,
      readMem := true, wroteDisk := false }

/-- Fixture stage of `fallbackResponse` (reached when the disk stage has
nothing usable): a truthy fixture is served with write-through to both
tiers; otherwise the memory stage runs. -/
def fallbackFixtureStage (fn symbol key : String) (ttlMs now : Int) (warning : String)
    (retryAfter : Option String) (writeOk : Bool)
    (memCache : MemCache CacheEntryB) (disk : Disk) (fixtures : Disk) : FallbackResult :=
  match readFixture (diskRead fixtures (diskFileName fn symbol)) with
  | some fx =>
    if truthy fx then
      { resp := some { baseResponse with
          ok := true
          cached := some true
          source := some "fixture"
          warning := some warning
          data := some fx
          xDataSource := some "fixture"
          retryAfter := retryAfter },
        memCache := memSet memCache key
          { expiresAt := now + ttlMs, payload := some fx, source := "fixture" },
        disk := writeDiskCache writeOk disk fn symbol (some fx) now,
        readMem := false, wroteDisk := true }
    else fallbackMemStage key warning memCache disk
  | none => fallbackMemStage key warning memCache disk

/-- Model of `fallbackResponse`: first a disk record with a truthy payload
(`if (diskRecord?.payload)`, any age) served as `source="disk-stale"` with
a memory rehydration; then the fixture stage, then the memory stage. -/
def fallbackResponse (fn symbol key : String) (ttlMs now : Int) (warning : String)
    (retryAfter : Option String) (writeOk : Bool)
    (memCache : MemCache CacheEntryB) (disk : Disk) (fixtures : Disk) :
    FallbackResult :=
  let fixtureStage : FallbackResult :=
    fallbackFixtureStage fn symbol key ttlMs now warning retryAfter writeOk
      memCache disk fixtures
  match readDiskCache (diskRead disk (diskFileName fn symbol)) with
  | some diskRecord =>
    match diskRecord.payload with
    | some p =>
      if truthy p then
        { resp := some { baseResponse with
            ok := true
            cached := some true
            stale := some true
            source := some "disk-stale"
            warning := some warning
            data := some p
            xDataSource := some "disk-stale"
            retryAfter := retryAfter },
          memCache := memSet memCache key
            { expiresAt := now + ttlMs, payload := some p, source := "disk" },
          disk := disk, readMem := false, wroteDisk := false }
      else fixtureStage
    | none => fixtureStage
  | none => fixtureStage

/-- Packaging of a fallback result (when it produced a response) into a
`GetResult`, keeping the state the orchestrator left behind. -/
def ofFallback (fb : FallbackResult) (resp : ApiResponse) : GetResult CacheEntryB :=
  { resp := resp, memCache := fb.memCache, disk := fb.disk,
    calledUpstream := true, readMem := fb.readMem, readDisk := true,
    wroteDisk := fb.wroteDisk }

/-- Error propagation when the fallback produced nothing: the shared state
is unchanged. -/
def noFallback (memCache : MemCache CacheEntryB) (disk : Disk) (fb : FallbackResult)
    (err : ApiResponse) : GetResult CacheEntryB :=
  { resp := err, memCache := memCache, disk := disk,
    calledUpstream := true, readMem := fb.readMem, readDisk := true,
    wroteDisk := fb.wroteDisk }

/-- Upstream stage of the network-first route revision (the `try`/`catch`
block): classify the fetch outcome; every failure classification consults
`fallbackResponse` and propagates an error only when it returns `null`;
success writes through both caches. -/
def upstreamB (fn symbol key : String) (ttlMs now : Int) (fetch : FetchOutcome)
    (writeOk : Bool) (memCache : MemCache CacheEntryB) (disk : Disk)
    (fixtures : Disk) : GetResult CacheEntryB :=
  match fetch with
  | .abort =>
    let fb := fallbackResponse fn symbol key ttlMs now "Upstream timed out."
      none writeOk memCache disk fixtures
    match fb.resp with
    | some r => ofFallback fb r
    | none => noFallback memCache disk fb (jsonError "Upstream request timed out." 504)
  | .failure =>
    let fb := fallbackResponse fn symbol key ttlMs now "Upstream fetch failed."
      none writeOk memCache disk fixtures
    match fb.resp with
    | some r => ofFallback fb r
    | none => noFallback memCache disk fb
        (jsonError "Failed to fetch from Alpha Vantage and no fallback is available." 502)
  | .response res =>
    match res.body with
    | none =>
      let fb := fallbackResponse fn symbol key ttlMs now
        "Upstream returned non-JSON; served fallback data." none writeOk
        memCache disk fixtures
      match fb.resp with
      | some r => ofFallback fb r
      | none => noFallback memCache disk fb
          (jsonError "Upstream returned non-JSON response and no fallback is available." 502)
    | some data =>
      let throttleMsg := throttleOf data
      if truthyOpt throttleMsg then
        let fb := fallbackResponse fn symbol key ttlMs now (jstr throttleMsg)
          (some "1") writeOk memCache disk fixtures
        match fb.resp with
        | some r => ofFallback fb r
        | none => noFallback memCache disk fb
            { baseResponse with
                status := 429
                ok := false
                error := some (jstr throttleMsg)
                retryAfter := some "1" }
      else if truthyOpt (jget data "Error Message") then
        let fb := fallbackResponse fn symbol key ttlMs now
          ("Alpha Vantage error: " ++ jstr (jget data "Error Message"))
          none writeOk memCache disk fixtures
        match fb.resp with
        | some r => ofFallback fb r
        | none => noFallback memCache disk fb
            (jsonError ("Alpha Vantage error: " ++ jstr (jget data "Error Message")) 502)
      else if !res.httpOk then
        let fb := fallbackResponse fn symbol key ttlMs now
          ("Upstream HTTP " ++ toString res.status) none writeOk
          memCache disk fixtures
        match fb.resp with
        | some r => ofFallback fb r
        | none => noFallback memCache disk fb
            (jsonError ("Upstream HTTP " ++ toString res.status) 502)
      else
        { resp := { baseResponse with
              ok := true
              cached := some false
              source := some "upstream"
              data := some data
              cacheControl := some ("public, max-age=0, s-maxage=" ++ toString (ttlSeconds fn))
              xDataSource := some "upstream" },
          memCache := memSet memCache key
            { expiresAt := now + ttlMs, payload := some data, source := "upstream" },
          disk := writeDiskCache writeOk disk fn symbol (some data) now,
          calledUpstream := true, readMem := false, readDisk := false, wroteDisk := true }

/-- Model of `GET` in the network-first revision of the route (the one
whose failure handling is `fallbackResponse`): credential check, input
validation, then always the upstream call, with every failure
classification (non-JSON body, throttle marker, error marker, HTTP not-ok,
thrown transport error) routed through `fallbackResponse` and propagated
as an error only when the latter returns `null`. -/
def GET_B (apiKey fnRaw symbolRaw : Option String) (now : Int)
    (fetch : FetchOutcome) (writeOk : Bool)
    (memCache : MemCache CacheEntryB) (disk : Disk) (fixtures : Disk) :
    GetResult CacheEntryB :=
  match apiKey with
  | none =>
    { resp := jsonError "Server misconfigured: missing ALPHAVANTAGE_API_KEY" 500,
      memCache := memCache, disk := disk,
      calledUpstream := false, readMem := false, readDisk := false, wroteDisk := false }
  | some _ =>
    let fn := normalizeParam fnRaw
    let symbol := normalizeParam symbolRaw
    if !ALLOWED_FUNCTIONS.contains fn then
      { resp := jsonError "Invalid 'function'. Use OVERVIEW or TIME_SERIES_DAILY." 400,
        memCache := memCache, disk := disk,
        calledUpstream := false, readMem := false, readDisk := false, wroteDisk := false }
    else if symbol = "" || !SYMBOL_RE_test symbol then
      { resp := jsonError "Invalid 'symbol'. Example: MSFT, AAPL, BRK.B" 400,
        memCache := memCache, disk := disk,
        calledUpstream := false, readMem := false, readDisk := false, wroteDisk := false }
    else
      upstreamB fn symbol (cacheKey fn symbol) (ttlMsOf fn) now fetch writeOk
        memCache disk fixtures

/-! ### Derived observation predicates -/

/-- The disk payload the fallback orchestrator would consult:
`(await readDiskCache(fn, symbol))?.payload`. -/
def diskPayload (disk : Disk) (fn symbol : String) : Option Json :=
  (readDiskCache (diskRead disk (diskFileName fn symbol))).bind (fun r => r.payload)

/-- Whether the disk tier can answer a fallback: the guard
`if (diskRecord?.payload)` of `fallbackResponse`. -/
def diskAvailable (disk : Disk) (fn symbol : String) : Bool :=
  truthyOpt (diskPayload disk fn symbol)

/-- The fixture payload for a key (`await readFixture(fn, symbol)`). -/
def fixturePayload (fixtures : Disk) (fn symbol : String) : Option Json :=
  readFixture (diskRead fixtures (diskFileName fn symbol))

/-- Whether the fixture tier can answer a fallback: the guard
`if (fixture)` of `fallbackResponse`. -/
def fixtureAvailable (fixtures : Disk) (fn symbol : String) : Bool :=
  truthyOpt (fixturePayload fixtures fn symbol)

/-- The memory payload for a key (`memCache.get(key)?.payload`). -/
def memPayload (m : MemCache CacheEntryB) (key : String) : Option Json :=
  (memGet m key).bind (fun e => e.payload)

/-- Whether the memory tier can answer a fallback: the guard
`if (memHit?.payload)` of `fallbackResponse`. -/
def memAvailable (m : MemCache CacheEntryB) (key : String) : Bool :=
  truthyOpt (memPayload m key)

/-- The upstream failure classifications, read off the guards of the route:
a thrown transport error (timeout or otherwise), a body that is not JSON,
a truthy throttle marker, a truthy error marker, or an HTTP-not-ok status. -/
def isFailureOutcome : FetchOutcome → Bool
  | .abort => true
  | .failure => true
  | .response res =>
    match res.body with
    | none => true
    | some data =>
      truthyOpt (throttleOf data) || truthyOpt (jget data "Error Message") || !res.httpOk

/-- Freshness of a disk record as computed by the route
(`diskAgeMs = now - savedAt; diskFresh = diskAgeMs <= ttlMs`). -/
def diskFreshAt (r : DiskCacheRecord) (now ttlMs : Int) : Bool :=
  now - r.savedAt ≤ ttlMs

/-- The validation of `savedAt` performed by `readDiskCache`
(`typeof parsed.savedAt === "number"`). -/
def savedAtIsNum (v : Json) : Bool :=
  match jget v "savedAt" with
  | some (.num _) => true
  | _ => false

/-! ### Helper lemmas -/

theorem assocGet_assocSet_self {α : Type} (l : List (String × α)) (k : String) (v : α) :
    assocGet (assocSet l k v) k = some v := by
  induction l with
  | nil => simp [assocGet, assocSet]
  | cons hd tl ih =>
    obtain ⟨k', v'⟩ := hd
    by_cases h : k' = k
    · subst h
      simp [assocGet, assocSet]
    · simp [assocGet, assocSet, h, ih]

theorem SYMBOL_RE_test_ne_empty {s : String} (h : SYMBOL_RE_test s = true) : s ≠ "" := by
  intro he
  subst he
  simp [SYMBOL_RE_test] at h

theorem schedStep_start (l n d : Int) : (schedStep l n d).start = max n (l + 1100) := by
  simp only [schedStep]
  omega

theorem schedStep_recordedAt (l n d : Int) : (schedStep l n d).recordedAt = (schedStep l n d).start := rfl

theorem schedStep_finish (l n d : Int) : (schedStep l n d).finish = (schedStep l n d).start + d := rfl

/-! ### Claim C2 (scheduler) -/

/-- Claim C2, counterexample: the scheduler does not record the completion
time of its call. A caller that acquires an idle lane
(`__avLastCallAt = 0`) at time 2000 and whose upstream call takes 500 ms
starts (and stores into `__avLastCallAt`) at time 2000, while its call
completes at 2500: the stored timestamp is the start of the call, written
before `fn()` runs, not the completion time written after it. -/
theorem scheduler_records_start_not_completion :
    (schedStep 0 2000 500).recordedAt = 2000 ∧
    (schedStep 0 2000 500).finish = 2500 ∧
    (schedStep 0 2000 500).recordedAt ≠ (schedStep 0 2000 500).finish := by
  refine ⟨rfl, rfl, ?_⟩
  decide

/-- Claim C2, amended: upstream calls in the lane are serialized in FIFO
order — each call starts no earlier than the previous call's completion —
and consecutive call starts are spaced by at least 1100 ms; the scheduler
computes the wait from the stored `__avLastCallAt`, which is the previous
call's start time, recorded immediately before the call is performed. -/
theorem scheduler_serializes_and_spaces_calls (lastCallAt now : Int) (ds : List Int) :
    List.Chain' (fun s t => s.finish ≤ t.start ∧ s.start + 1100 ≤ t.start)
      (schedRun lastCallAt now ds) ∧
    ∀ s ∈ schedRun lastCallAt now ds, s.recordedAt = s.start := by
  induction ds generalizing lastCallAt now with
  | nil => exact ⟨List.chain'_nil, by intro s hs; simp [schedRun] at hs⟩
  | cons d ds ih =>
    obtain ⟨ihChain, ihRec⟩ :=
      ih (schedStep lastCallAt now d).recordedAt (schedStep lastCallAt now d).finish
    constructor
    · simp only [schedRun]
      cases ds with
      | nil => simp [schedRun]
      | cons d' ds' =>
        simp only [schedRun] at ihChain ⊢
        refine List.chain'_cons.mpr ⟨?_, ihChain⟩
        have h1 := schedStep_start (schedStep lastCallAt now d).recordedAt
          (schedStep lastCallAt now d).finish d'
        have h2 := schedStep_recordedAt lastCallAt now d
        have h3 := schedStep_finish lastCallAt now d
        omega
    · intro s hs
      simp only [schedRun, List.mem_cons] at hs
      rcases hs with h | h
      · subst h; rfl
      · exact ihRec s h

/-! ### Claim C8 (disk-cache failures are swallowed) -/

theorem upstreamA_resp_indep (fn symbol key : String) (ttlMs now : Int)
    (fetch : FetchOutcome) (mem : MemCache CacheEntry) (disk : Disk) (sc : Option Json) :
    (upstreamA fn symbol key ttlMs now fetch true mem disk sc).resp =
    (upstreamA fn symbol key ttlMs now fetch false mem disk sc).resp := by
  unfold upstreamA
  dsimp only
  repeat' (first | rfl | split)

theorem diskStageA_resp_indep (fn symbol key : String) (ttlMs now : Int)
    (fetch : FetchOutcome) (mem : MemCache CacheEntry) (disk : Disk) :
    (diskStageA fn symbol key ttlMs now fetch true mem disk).resp =
    (diskStageA fn symbol key ttlMs now fetch false mem disk).resp := by
  unfold diskStageA
  split
  · split
    · rfl
    · exact upstreamA_resp_indep ..
  · exact upstreamA_resp_indep ..

theorem memStageA_resp_indep (fn symbol key : String) (ttlMs now : Int)
    (fetch : FetchOutcome) (mem : MemCache CacheEntry) (disk : Disk) :
    (memStageA fn symbol key ttlMs now fetch true mem disk).resp =
    (memStageA fn symbol key ttlMs now fetch false mem disk).resp := by
  unfold memStageA
  dsimp only
  split
  · split
    · rfl
    · exact diskStageA_resp_indep ..
  · exact diskStageA_resp_indep ..

theorem GET_A_resp_indep (apiKey fnRaw symbolRaw : Option String) (now : Int)
    (fetch : FetchOutcome) (mem : MemCache CacheEntry) (disk : Disk) :
    (GET_A apiKey fnRaw symbolRaw now fetch true mem disk).resp =
    (GET_A apiKey fnRaw symbolRaw now fetch false mem disk).resp := by
  cases apiKey with
  | none => rfl
  | some k =>
    unfold GET_A
    dsimp only
    split
    · rfl
    · split
      · rfl
      · exact memStageA_resp_indep ..

/-- Claim C8: disk-cache I/O failures never reach the caller. A failed
read (missing/unreadable file), a malformed body, or a record whose
`savedAt` is not a number all make `readDiskCache` return `null`, exactly
as if the record were absent, without crashing; and the response of the
route handler is identical whether disk writes succeed or fail, so a write
failure never fails the overall request. -/
theorem disk_io_failures_swallowed :
    (readDiskCache none = none) ∧
    (readDiskCache (some .corrupt) = none) ∧
    (∀ v : Json, savedAtIsNum v = false → readDiskCache (some (.json v)) = none) ∧
    (∀ apiKey fnRaw symbolRaw now fetch mem disk,
      (GET_A apiKey fnRaw symbolRaw now fetch true mem disk).resp =
      (GET_A apiKey fnRaw symbolRaw now fetch false mem disk).resp) := by
  refine ⟨rfl, rfl, ?_, fun apiKey fnRaw symbolRaw now fetch mem disk =>
    GET_A_resp_indep apiKey fnRaw symbolRaw now fetch mem disk⟩
  intro v h
  simp only [readDiskCache, decodeDiskRecord]
  split
  · split
    · rename_i n heq
      simp [savedAtIsNum, heq] at h
    · rfl
  · rfl

/-- Claim C8, witness: a record whose `savedAt` is the string `"x"` is
read back as absent. -/
theorem disk_io_failures_swallowed_witness :
    savedAtIsNum (.obj [("savedAt", .str "x")]) = false ∧
    readDiskCache (some (.json (.obj [("savedAt", .str "x")]))) = none :=
  ⟨rfl, disk_io_failures_swallowed.2.2.1 (.obj [("savedAt", .str "x")]) rfl⟩

/-! ### Claim C9 (disk round-trip before TTL expiry) -/

/-- Claim C9: a payload written to the disk cache at time `tw` and read
back at any time `tr` within the operation's TTL is returned structurally
unchanged (the record read is exactly the record written, with `savedAt`
set to the write time), and the record is classified fresh by the route's
freshness computation. -/
theorem disk_roundtrip_fresh (fn symbol : String) (payload : Json) (tw tr : Int)
    (disk : Disk) (h : tr - tw ≤ ttlMsOf fn) :
    readDiskCache (diskRead (writeDiskCache true disk fn symbol (some payload) tw)
        (diskFileName fn symbol)) =
      some { savedAt := tw, payload := some payload } ∧
    diskFreshAt { savedAt := tw, payload := some payload } tr (ttlMsOf fn) = true := by
  constructor
  · have hr : diskRead (writeDiskCache true disk fn symbol (some payload) tw)
        (diskFileName fn symbol) =
        some (.json (encodeDiskRecord tw fn symbol (some payload))) := by
      unfold writeDiskCache diskWrite diskRead
      simp [assocGet_assocSet_self]
    rw [hr]
    rfl
  · simp only [diskFreshAt, decide_eq_true_eq]
    exact h

/-- Claim C9, witness: a concrete payload written at time 100 and read at
time 200 against the OVERVIEW TTL. -/
theorem disk_roundtrip_fresh_witness :
    ((200 : Int) - 100 ≤ ttlMsOf "OVERVIEW") ∧
    (readDiskCache (diskRead (writeDiskCache true [] "OVERVIEW" "AAPL" (some (.num 7)) 100)
        (diskFileName "OVERVIEW" "AAPL")) =
      some { savedAt := 100, payload := some (.num 7) } ∧
    diskFreshAt { savedAt := 100, payload := some (.num 7) } 200 (ttlMsOf "OVERVIEW") = true) :=
  ⟨by decide, disk_roundtrip_fresh "OVERVIEW" "AAPL" (.num 7) 100 200 [] (by decide)⟩

/-! ### Fallback orchestrator characterization -/


theorem fallbackResponse_disk_spec (fn symbol key : String) (ttlMs now : Int)
    (warning : String) (retryAfter : Option String) (writeOk : Bool)
    (mem : MemCache CacheEntryB) (disk fixtures : Disk) (p : Json)
    (hd : diskPayload disk fn symbol = some p) (htp : truthy p = true) :
    fallbackResponse fn symbol key ttlMs now warning retryAfter writeOk mem disk fixtures =
      { resp := some { baseResponse with
            ok := true
            cached := some true
            stale := some true
            source := some "disk-stale"
            warning := some warning
            data := some p
            xDataSource := some "disk-stale"
            retryAfter := retryAfter },
        memCache := memSet mem key { expiresAt := now + ttlMs, payload := some p, source := "disk" },
        disk := disk, readMem := false, wroteDisk := false } := by
  unfold fallbackResponse
  unfold diskPayload at hd
  cases hrec : readDiskCache (diskRead disk (diskFileName fn symbol)) with
  | none => rw [hrec] at hd; simp at hd
  | some r =>
    rw [hrec] at hd
    simp only [Option.some_bind] at hd
    cases hp : r.payload with
    | none => rw [hp] at hd; exact absurd hd (by simp)
    | some q =>
      rw [hp] at hd
      injection hd with hd
      subst hd
      simp [hp, htp]

theorem fallbackFixtureStage_hit (fn symbol key : String) (ttlMs now : Int)
    (warning : String) (retryAfter : Option String) (writeOk : Bool)
    (mem : MemCache CacheEntryB) (disk fixtures : Disk) (p : Json)
    (hf : fixturePayload fixtures fn symbol = some p) (htp : truthy p = true) :
    fallbackFixtureStage fn symbol key ttlMs now warning retryAfter writeOk mem disk fixtures =
      { resp := some { baseResponse with
            ok := true
            cached := some true
            source := some "fixture"
            warning := some warning
            data := some p
            xDataSource := some "fixture"
            retryAfter := retryAfter },
        memCache := memSet mem key { expiresAt := now + ttlMs, payload := some p, source := "fixture" },
        disk := writeDiskCache writeOk disk fn symbol (some p) now,
        readMem := false, wroteDisk := true } := by
  unfold fallbackFixtureStage
  unfold fixturePayload at hf
  rw [hf]
  simp [htp]

theorem fallback_disk_fallthrough (fn symbol key : String) (ttlMs now : Int)
    (warning : String) (retryAfter : Option String) (writeOk : Bool)
    (mem : MemCache CacheEntryB) (disk fixtures : Disk)
    (hd : diskAvailable disk fn symbol = false) :
    fallbackResponse fn symbol key ttlMs now warning retryAfter writeOk mem disk fixtures =
    fallbackFixtureStage fn symbol key ttlMs now warning retryAfter writeOk mem disk fixtures := by
  unfold fallbackResponse
  unfold diskAvailable diskPayload at hd
  cases hrec : readDiskCache (diskRead disk (diskFileName fn symbol)) with
  | none => simp
  | some r =>
    rw [hrec] at hd
    simp only [Option.some_bind] at hd
    cases hp : r.payload with
    | none => simp [hp]
    | some q =>
      rw [hp] at hd
      simp only [truthyOpt] at hd
      simp [hp, hd]

theorem fallbackMemStage_hit (key : String) (warning : String)
    (mem : MemCache CacheEntryB) (disk : Disk) (p : Json)
    (hm : memPayload mem key = some p) (htp : truthy p = true) :
    fallbackMemStage key warning mem disk =
      { resp := some { baseResponse with
            ok := true
            cached := some true
            stale := some true
            source := some "memory"
            warning := some warning
            data := some p
            xDataSource := some "memory" },
        memCache := mem, disk := disk, readMem := true, wroteDisk := false } := by
  unfold fallbackMemStage
  unfold memPayload at hm
  cases hrec : memGet mem key with
  | none => rw [hrec] at hm; simp at hm
  | some e =>
    rw [hrec] at hm
    simp only [Option.some_bind] at hm
    cases hp : e.payload with
    | none => rw [hp] at hm; exact absurd hm (by simp)
    | some q =>
      rw [hp] at hm
      injection hm with hm
      subst hm
      simp [hp, htp]

theorem fallbackMemStage_miss (key : String) (warning : String)
    (mem : MemCache CacheEntryB) (disk : Disk)
    (hm : memAvailable mem key = false) :
    fallbackMemStage key warning mem disk =
      { resp := none, memCache := mem, disk := disk, readMem := true, wroteDisk := false } := by
  unfold fallbackMemStage
  unfold memAvailable memPayload at hm
  cases hrec : memGet mem key with
  | none => simp
  | some e =>
    rw [hrec] at hm
    simp only [Option.some_bind] at hm
    cases hp : e.payload with
    | none => simp [hp]
    | some q =>
      rw [hp] at hm
      simp only [truthyOpt] at hm
      simp [hp, hm]

theorem fallbackFixtureStage_fallthrough (fn symbol key : String) (ttlMs now : Int)
    (warning : String) (retryAfter : Option String) (writeOk : Bool)
    (mem : MemCache CacheEntryB) (disk fixtures : Disk)
    (hf : fixtureAvailable fixtures fn symbol = false) :
    fallbackFixtureStage fn symbol key ttlMs now warning retryAfter writeOk mem disk fixtures =
    fallbackMemStage key warning mem disk := by
  unfold fallbackFixtureStage
  unfold fixtureAvailable fixturePayload at hf
  cases hrec : readFixture (diskRead fixtures (diskFileName fn symbol)) with
  | none => simp
  | some fx =>
    rw [hrec] at hf
    simp only [truthyOpt] at hf
    simp [hf]

/-! ### Route reduction lemmas -/


theorem GET_A_valid_eq (k : String) (fnRaw symbolRaw : Option String) (now : Int)
    (fetch : FetchOutcome) (writeOk : Bool) (mem : MemCache CacheEntry) (disk : Disk)
    (hfn : ALLOWED_FUNCTIONS.contains (normalizeParam fnRaw) = true)
    (hsym : SYMBOL_RE_test (normalizeParam symbolRaw) = true) :
    GET_A (some k) fnRaw symbolRaw now fetch writeOk mem disk =
    memStageA (normalizeParam fnRaw) (normalizeParam symbolRaw)
      (cacheKey (normalizeParam fnRaw) (normalizeParam symbolRaw))
      (ttlMsOf (normalizeParam fnRaw)) now fetch writeOk mem disk := by
  have hne : normalizeParam symbolRaw ≠ "" := SYMBOL_RE_test_ne_empty hsym
  replace hfn : normalizeParam fnRaw ∈ ALLOWED_FUNCTIONS := List.mem_of_elem_eq_true hfn
  unfold GET_A
  simp [hfn, hsym, hne]

theorem GET_B_valid_eq (k : String) (fnRaw symbolRaw : Option String) (now : Int)
    (fetch : FetchOutcome) (writeOk : Bool) (mem : MemCache CacheEntryB)
    (disk fixtures : Disk)
    (hfn : ALLOWED_FUNCTIONS.contains (normalizeParam fnRaw) = true)
    (hsym : SYMBOL_RE_test (normalizeParam symbolRaw) = true) :
    GET_B (some k) fnRaw symbolRaw now fetch writeOk mem disk fixtures =
    upstreamB (normalizeParam fnRaw) (normalizeParam symbolRaw)
      (cacheKey (normalizeParam fnRaw) (normalizeParam symbolRaw))
      (ttlMsOf (normalizeParam fnRaw)) now fetch writeOk mem disk fixtures := by
  have hne : normalizeParam symbolRaw ≠ "" := SYMBOL_RE_test_ne_empty hsym
  replace hfn : normalizeParam fnRaw ∈ ALLOWED_FUNCTIONS := List.mem_of_elem_eq_true hfn
  unfold GET_B
  simp [hfn, hsym, hne]



/-- The terminal error response of the network-first route when no
fallback is available, per failure classification (the error literals of
the route's branches; the last arm is only reached when `res.ok` is
false). -/
def upstreamBError : FetchOutcome → ApiResponse
  | .abort => jsonError "Upstream request timed out." 504
  | .failure => jsonError "Failed to fetch from Alpha Vantage and no fallback is available." 502
  | .response res =>
    match res.body with
    | none => jsonError "Upstream returned non-JSON response and no fallback is available." 502
    | some data =>
      if truthyOpt (throttleOf data) then
        { baseResponse with
            status := 429
            ok := false
            error := some (jstr (throttleOf data))
            retryAfter := some "1" }
      else if truthyOpt (jget data "Error Message") then
        jsonError ("Alpha Vantage error: " ++ jstr (jget data "Error Message")) 502
      else jsonError ("Upstream HTTP " ++ toString res.status) 502

theorem fallbackResponse_none (fn symbol key : String) (ttlMs now : Int)
    (warning : String) (retryAfter : Option String) (writeOk : Bool)
    (mem : MemCache CacheEntryB) (disk fixtures : Disk)
    (hd : diskAvailable disk fn symbol = false)
    (hf : fixtureAvailable fixtures fn symbol = false)
    (hm : memAvailable mem key = false) :
    fallbackResponse fn symbol key ttlMs now warning retryAfter writeOk mem disk fixtures =
      { resp := none, memCache := mem, disk := disk, readMem := true, wroteDisk := false } := by
  rw [fallback_disk_fallthrough _ _ _ _ _ _ _ _ _ _ _ hd,
    fallbackFixtureStage_fallthrough _ _ _ _ _ _ _ _ _ _ _ hf,
    fallbackMemStage_miss _ _ _ _ hm]

theorem upstreamB_fail_disk (fn symbol key : String) (ttlMs now : Int)
    (fetch : FetchOutcome) (writeOk : Bool) (mem : MemCache CacheEntryB)
    (disk fixtures : Disk) (p : Json)
    (hfail : isFailureOutcome fetch = true)
    (hd : diskPayload disk fn symbol = some p) (htp : truthy p = true) :
    ∃ w ra, upstreamB fn symbol key ttlMs now fetch writeOk mem disk fixtures =
      { resp := { baseResponse with
            ok := true
            cached := some true
            stale := some true
            source := some "disk-stale"
            warning := some w
            data := some p
            xDataSource := some "disk-stale"
            retryAfter := ra },
        memCache := memSet mem key { expiresAt := now + ttlMs, payload := some p, source := "disk" },
        disk := disk, calledUpstream := true, readMem := false, readDisk := true,
        wroteDisk := false } := by
  rcases fetch with ⟨httpOk, status, body⟩ | _ | _
  · cases body with
    | none =>
      refine ⟨"Upstream returned non-JSON; served fallback data.", none, ?_⟩
      unfold upstreamB
      dsimp only
      rw [fallbackResponse_disk_spec _ _ _ _ _ _ _ _ _ _ _ _ hd htp]
      rfl
    | some data =>
      simp only [isFailureOutcome] at hfail
      unfold upstreamB
      dsimp only
      cases ht : truthyOpt (throttleOf data) with
      | true =>
        refine ⟨jstr (throttleOf data), some "1", ?_⟩
        rw [if_pos rfl]
        rw [fallbackResponse_disk_spec _ _ _ _ _ _ _ _ _ _ _ _ hd htp]
        rfl
      | false =>
        cases he : truthyOpt (jget data "Error Message") with
        | true =>
          refine ⟨"Alpha Vantage error: " ++ jstr (jget data "Error Message"), none, ?_⟩
          rw [if_neg (by simp), if_pos rfl]
          rw [fallbackResponse_disk_spec _ _ _ _ _ _ _ _ _ _ _ _ hd htp]
          rfl
        | false =>
          cases ho : httpOk with
          | true => simp [ht, he, ho] at hfail
          | false =>
            refine ⟨"Upstream HTTP " ++ toString status, none, ?_⟩
            rw [if_neg (by simp), if_neg (by simp), if_pos (by simp)]
            rw [fallbackResponse_disk_spec _ _ _ _ _ _ _ _ _ _ _ _ hd htp]
            rfl
  · refine ⟨"Upstream timed out.", none, ?_⟩
    unfold upstreamB
    dsimp only
    rw [fallbackResponse_disk_spec _ _ _ _ _ _ _ _ _ _ _ _ hd htp]
    rfl
  · refine ⟨"Upstream fetch failed.", none, ?_⟩
    unfold upstreamB
    dsimp only
    rw [fallbackResponse_disk_spec _ _ _ _ _ _ _ _ _ _ _ _ hd htp]
    rfl



theorem upstreamB_fail_fixture (fn symbol key : String) (ttlMs now : Int)
    (fetch : FetchOutcome) (writeOk : Bool) (mem : MemCache CacheEntryB)
    (disk fixtures : Disk) (p : Json)
    (hfail : isFailureOutcome fetch = true)
    (hd : diskAvailable disk fn symbol = false)
    (hf : fixturePayload fixtures fn symbol = some p) (htp : truthy p = true) :
    ∃ w ra, upstreamB fn symbol key ttlMs now fetch writeOk mem disk fixtures =
      { resp := { baseResponse with
            ok := true
            cached := some true
            source := some "fixture"
            warning := some w
            data := some p
            xDataSource := some "fixture"
            retryAfter := ra },
        memCache := memSet mem key { expiresAt := now + ttlMs, payload := some p, source := "fixture" },
        disk := writeDiskCache writeOk disk fn symbol (some p) now,
        calledUpstream := true, readMem := false, readDisk := true,
        wroteDisk := true } := by
  rcases fetch with ⟨httpOk, status, body⟩ | _ | _
  · cases body with
    | none =>
      refine ⟨"Upstream returned non-JSON; served fallback data.", none, ?_⟩
      unfold upstreamB
      dsimp only
      rw [fallback_disk_fallthrough _ _ _ _ _ _ _ _ _ _ _ hd,
        fallbackFixtureStage_hit _ _ _ _ _ _ _ _ _ _ _ _ hf htp]
      rfl
    | some data =>
      simp only [isFailureOutcome] at hfail
      unfold upstreamB
      dsimp only
      cases ht : truthyOpt (throttleOf data) with
      | true =>
        refine ⟨jstr (throttleOf data), some "1", ?_⟩
        rw [if_pos rfl]
        rw [fallback_disk_fallthrough _ _ _ _ _ _ _ _ _ _ _ hd,
          fallbackFixtureStage_hit _ _ _ _ _ _ _ _ _ _ _ _ hf htp]
        rfl
      | false =>
        cases he : truthyOpt (jget data "Error Message") with
        | true =>
          refine ⟨"Alpha Vantage error: " ++ jstr (jget data "Error Message"), none, ?_⟩
          rw [if_neg (by simp), if_pos rfl]
          rw [fallback_disk_fallthrough _ _ _ _ _ _ _ _ _ _ _ hd,
            fallbackFixtureStage_hit _ _ _ _ _ _ _ _ _ _ _ _ hf htp]
          rfl
        | false =>
          cases ho : httpOk with
          | true => simp [ht, he, ho] at hfail
          | false =>
            refine ⟨"Upstream HTTP " ++ toString status, none, ?_⟩
            rw [if_neg (by simp), if_neg (by simp), if_pos (by simp)]
            rw [fallback_disk_fallthrough _ _ _ _ _ _ _ _ _ _ _ hd,
              fallbackFixtureStage_hit _ _ _ _ _ _ _ _ _ _ _ _ hf htp]
            rfl
  · refine ⟨"Upstream timed out.", none, ?_⟩
    unfold upstreamB
    dsimp only
    rw [fallback_disk_fallthrough _ _ _ _ _ _ _ _ _ _ _ hd,
      fallbackFixtureStage_hit _ _ _ _ _ _ _ _ _ _ _ _ hf htp]
    rfl
  · refine ⟨"Upstream fetch failed.", none, ?_⟩
    unfold upstreamB
    dsimp only
    rw [fallback_disk_fallthrough _ _ _ _ _ _ _ _ _ _ _ hd,
      fallbackFixtureStage_hit _ _ _ _ _ _ _ _ _ _ _ _ hf htp]
    rfl

theorem upstreamB_fail_mem (fn symbol key : String) (ttlMs now : Int)
    (fetch : FetchOutcome) (writeOk : Bool) (mem : MemCache CacheEntryB)
    (disk fixtures : Disk) (p : Json)
    (hfail : isFailureOutcome fetch = true)
    (hd : diskAvailable disk fn symbol = false)
    (hf : fixtureAvailable fixtures fn symbol = false)
    (hm : memPayload mem key = some p) (htp : truthy p = true) :
    ∃ w, upstreamB fn symbol key ttlMs now fetch writeOk mem disk fixtures =
      { resp := { baseResponse with
            ok := true
            cached := some true
            stale := some true
            source := some "memory"
            warning := some w
            data := some p
            xDataSource := some "memory" },
        memCache := mem, disk := disk,
        calledUpstream := true, readMem := true, readDisk := true,
        wroteDisk := false } := by
  rcases fetch with ⟨httpOk, status, body⟩ | _ | _
  · cases body with
    | none =>
      refine ⟨"Upstream returned non-JSON; served fallback data.", ?_⟩
      unfold upstreamB
      dsimp only
      rw [fallback_disk_fallthrough _ _ _ _ _ _ _ _ _ _ _ hd,
        fallbackFixtureStage_fallthrough _ _ _ _ _ _ _ _ _ _ _ hf,
        fallbackMemStage_hit _ _ _ _ _ hm htp]
      rfl
    | some data =>
      simp only [isFailureOutcome] at hfail
      unfold upstreamB
      dsimp only
      cases ht : truthyOpt (throttleOf data) with
      | true =>
        refine ⟨jstr (throttleOf data), ?_⟩
        rw [if_pos rfl]
        rw [fallback_disk_fallthrough _ _ _ _ _ _ _ _ _ _ _ hd,
          fallbackFixtureStage_fallthrough _ _ _ _ _ _ _ _ _ _ _ hf,
          fallbackMemStage_hit _ _ _ _ _ hm htp]
        rfl
      | false =>
        cases he : truthyOpt (jget data "Error Message") with
        | true =>
          refine ⟨"Alpha Vantage error: " ++ jstr (jget data "Error Message"), ?_⟩
          rw [if_neg (by simp), if_pos rfl]
          rw [fallback_disk_fallthrough _ _ _ _ _ _ _ _ _ _ _ hd,
            fallbackFixtureStage_fallthrough _ _ _ _ _ _ _ _ _ _ _ hf,
            fallbackMemStage_hit _ _ _ _ _ hm htp]
          rfl
        | false =>
          cases ho : httpOk with
          | true => simp [ht, he, ho] at hfail
          | false =>
            refine ⟨"Upstream HTTP " ++ toString status, ?_⟩
            rw [if_neg (by simp), if_neg (by simp), if_pos (by simp)]
            rw [fallback_disk_fallthrough _ _ _ _ _ _ _ _ _ _ _ hd,
              fallbackFixtureStage_fallthrough _ _ _ _ _ _ _ _ _ _ _ hf,
              fallbackMemStage_hit _ _ _ _ _ hm htp]
            rfl
  · refine ⟨"Upstream timed out.", ?_⟩
    unfold upstreamB
    dsimp only
    rw [fallback_disk_fallthrough _ _ _ _ _ _ _ _ _ _ _ hd,
      fallbackFixtureStage_fallthrough _ _ _ _ _ _ _ _ _ _ _ hf,
      fallbackMemStage_hit _ _ _ _ _ hm htp]
    rfl
  · refine ⟨"Upstream fetch failed.", ?_⟩
    unfold upstreamB
    dsimp only
    rw [fallback_disk_fallthrough _ _ _ _ _ _ _ _ _ _ _ hd,
      fallbackFixtureStage_fallthrough _ _ _ _ _ _ _ _ _ _ _ hf,
      fallbackMemStage_hit _ _ _ _ _ hm htp]
    rfl

theorem upstreamB_fail_none (fn symbol key : String) (ttlMs now : Int)
    (fetch : FetchOutcome) (writeOk : Bool) (mem : MemCache CacheEntryB)
    (disk fixtures : Disk)
    (hfail : isFailureOutcome fetch = true)
    (hd : diskAvailable disk fn symbol = false)
    (hf : fixtureAvailable fixtures fn symbol = false)
    (hm : memAvailable mem key = false) :
    upstreamB fn symbol key ttlMs now fetch writeOk mem disk fixtures =
      { resp := upstreamBError fetch, memCache := mem, disk := disk,
        calledUpstream := true, readMem := true, readDisk := true,
        wroteDisk := false } := by
  rcases fetch with ⟨httpOk, status, body⟩ | _ | _
  · cases body with
    | none =>
      unfold upstreamB
      dsimp only
      rw [fallbackResponse_none _ _ _ _ _ _ _ _ _ _ _ hd hf hm]
      rfl
    | some data =>
      simp only [isFailureOutcome] at hfail
      unfold upstreamB
      dsimp only
      cases ht : truthyOpt (throttleOf data) with
      | true =>
        rw [if_pos rfl]
        rw [fallbackResponse_none _ _ _ _ _ _ _ _ _ _ _ hd hf hm]
        simp [upstreamBError, noFallback, ht]
      | false =>
        cases he : truthyOpt (jget data "Error Message") with
        | true =>
          rw [if_neg (by simp), if_pos rfl]
          rw [fallbackResponse_none _ _ _ _ _ _ _ _ _ _ _ hd hf hm]
          simp [upstreamBError, noFallback, ht, he]
        | false =>
          cases ho : httpOk with
          | true => simp [ht, he, ho] at hfail
          | false =>
            rw [if_neg (by simp), if_neg (by simp), if_pos (by simp)]
            rw [fallbackResponse_none _ _ _ _ _ _ _ _ _ _ _ hd hf hm]
            simp [upstreamBError, noFallback, ht, he]
  · unfold upstreamB
    dsimp only
    rw [fallbackResponse_none _ _ _ _ _ _ _ _ _ _ _ hd hf hm]
    rfl
  · unfold upstreamB
    dsimp only
    rw [fallbackResponse_none _ _ _ _ _ _ _ _ _ _ _ hd hf hm]
    rfl


theorem upstreamA_success (fn symbol key : String) (ttlMs now : Int)
    (res : UpstreamResponse) (data : Json) (writeOk : Bool)
    (mem : MemCache CacheEntry) (disk : Disk) (sc : Option Json)
    (hbody : res.body = some data) (hok : res.httpOk = true)
    (ht : truthyOpt (throttleOf data) = false)
    (he : truthyOpt (jget data "Error Message") = false) :
    upstreamA fn symbol key ttlMs now (.response res) writeOk mem disk sc =
      { resp := { baseResponse with
            ok := true
            cached := some false
            source := some "upstream"
            data := some data
            cacheControl := some ("public, max-age=0, s-maxage=" ++ toString (ttlSeconds fn)) },
        memCache := memSet mem key { expiresAt := now + ttlMs, payload := some data },
        disk := writeDiskCache writeOk disk fn symbol (some data) now,
        calledUpstream := true, readMem := true, readDisk := true, wroteDisk := true } := by
  rcases res with ⟨httpOk, status, body⟩
  simp only at hbody hok
  subst hbody
  subst hok
  unfold upstreamA
  dsimp only
  rw [if_neg (by simp [ht]), if_neg (by simp [he]), if_neg (by simp)]

theorem memStageA_hit (fn symbol key : String) (ttlMs now : Int) (fetch : FetchOutcome)
    (writeOk : Bool) (mem : MemCache CacheEntry) (disk : Disk) (e : CacheEntry)
    (hm : memGet mem key = some e) (hexp : e.expiresAt > now) :
    memStageA fn symbol key ttlMs now fetch writeOk mem disk =
      { resp := { baseResponse with
            ok := true
            cached := some true
            source := some "memory"
            data := e.payload
            cacheControl := some "public, max-age=0, s-maxage=60" },
        memCache := mem,
        disk := writeDiskCache writeOk disk fn symbol e.payload now,
        calledUpstream := false, readMem := true, readDisk := false, wroteDisk := true } := by
  unfold memStageA
  dsimp only
  rw [hm]
  dsimp only
  rw [if_pos hexp]

theorem memStageA_miss (fn symbol key : String) (ttlMs now : Int) (fetch : FetchOutcome)
    (writeOk : Bool) (mem : MemCache CacheEntry) (disk : Disk)
    (hm : memGet mem key = none) :
    memStageA fn symbol key ttlMs now fetch writeOk mem disk =
    diskStageA fn symbol key ttlMs now fetch writeOk mem disk := by
  unfold memStageA
  dsimp only
  rw [hm]

theorem diskStageA_miss (fn symbol key : String) (ttlMs now : Int) (fetch : FetchOutcome)
    (writeOk : Bool) (mem : MemCache CacheEntry) (disk : Disk)
    (hd : readDiskCache (diskRead disk (diskFileName fn symbol)) = none) :
    diskStageA fn symbol key ttlMs now fetch writeOk mem disk =
    upstreamA fn symbol key ttlMs now fetch writeOk mem disk none := by
  unfold diskStageA
  rw [hd]



/-- A concrete cached payload used by witnesses and counterexamples. -/
def examplePayload : Json := .obj [("Name", .str "Apple Inc")]

/-- A throttled upstream outcome: HTTP 200 whose JSON body carries a
truthy `Note` marker. -/
def exampleThrottle : FetchOutcome :=
  .response { httpOk := true, status := 200, body := some (.obj [("Note", .str "rate limit")]) }

/-- A disk directory holding one record for `OVERVIEW:AAPL`, saved at time
0 (stale for any `now` beyond the TTL). -/
def exampleStaleDisk : Disk :=
  [(diskFileName "OVERVIEW" "AAPL",
    .json (encodeDiskRecord 0 "OVERVIEW" "AAPL" (some examplePayload)))]

/-- Claim C4, counterexample: a request whose raw symbol `"aapl"` fails
the validation pattern (lowercase) is nevertheless served normally: the
route uppercases the parameter before testing it, so the response is a 200
memory hit, not a 400, and a disk write is even attempted. -/
theorem validation_lowercase_counterexample :
    SYMBOL_RE_test "aapl" = false ∧
    (GET_A (some "k") (some "OVERVIEW") (some "aapl") 5 .failure true
        [(cacheKey "OVERVIEW" "AAPL", { expiresAt := 10, payload := some examplePayload })]
        []).resp.status = 200 ∧
    (GET_A (some "k") (some "OVERVIEW") (some "aapl") 5 .failure true
        [(cacheKey "OVERVIEW" "AAPL", { expiresAt := 10, payload := some examplePayload })]
        []).wroteDisk = true := by
  refine ⟨by decide, by decide, by decide⟩

/-- Claim C4, amended: validation applies to the uppercased parameters.
For every request (with the credential configured) whose uppercased
operation is not in the allow-list or whose uppercased symbol fails the
pattern, the route answers 400 and performs no cache read, no cache write
and no upstream call; a raw lowercase symbol, however, is uppercased into
a valid one and accepted. -/
theorem validation_rejects_before_io (k : String) (fnRaw symbolRaw : Option String)
    (now : Int) (fetch : FetchOutcome) (writeOk : Bool)
    (mem : MemCache CacheEntry) (disk : Disk)
    (h : ALLOWED_FUNCTIONS.contains (normalizeParam fnRaw) = false ∨
      SYMBOL_RE_test (normalizeParam symbolRaw) = false) :
    (GET_A (some k) fnRaw symbolRaw now fetch writeOk mem disk).resp.status = 400 ∧
    (GET_A (some k) fnRaw symbolRaw now fetch writeOk mem disk).resp.ok = false ∧
    (GET_A (some k) fnRaw symbolRaw now fetch writeOk mem disk).memCache = mem ∧
    (GET_A (some k) fnRaw symbolRaw now fetch writeOk mem disk).disk = disk ∧
    (GET_A (some k) fnRaw symbolRaw now fetch writeOk mem disk).calledUpstream = false ∧
    (GET_A (some k) fnRaw symbolRaw now fetch writeOk mem disk).readMem = false ∧
    (GET_A (some k) fnRaw symbolRaw now fetch writeOk mem disk).readDisk = false ∧
    (GET_A (some k) fnRaw symbolRaw now fetch writeOk mem disk).wroteDisk = false := by
  by_cases hc : ALLOWED_FUNCTIONS.contains (normalizeParam fnRaw) = true
  · have h2 : SYMBOL_RE_test (normalizeParam symbolRaw) = false := by
      rcases h with h1 | h2
      · rw [hc] at h1; cases h1
      · exact h2
    have hgoal : GET_A (some k) fnRaw symbolRaw now fetch writeOk mem disk =
        { resp := jsonError "Invalid 'symbol'. Example: MSFT, AAPL, BRK.B" 400,
          memCache := mem, disk := disk,
          calledUpstream := false, readMem := false, readDisk := false, wroteDisk := false } := by
      unfold GET_A
      dsimp only
      rw [if_neg (by rw [hc]; decide), if_pos (by simp [h2])]
    rw [hgoal]
    exact ⟨rfl, rfl, rfl, rfl, rfl, rfl, rfl, rfl⟩
  · have h1 : ALLOWED_FUNCTIONS.contains (normalizeParam fnRaw) = false := by
      cases hb : ALLOWED_FUNCTIONS.contains (normalizeParam fnRaw)
      · rfl
      · exact absurd hb hc
    have hgoal : GET_A (some k) fnRaw symbolRaw now fetch writeOk mem disk =
        { resp := jsonError "Invalid 'function'. Use OVERVIEW or TIME_SERIES_DAILY." 400,
          memCache := mem, disk := disk,
          calledUpstream := false, readMem := false, readDisk := false, wroteDisk := false } := by
      unfold GET_A
      dsimp only
      rw [if_pos (by rw [h1]; rfl)]
    rw [hgoal]
    exact ⟨rfl, rfl, rfl, rfl, rfl, rfl, rfl, rfl⟩

/-- Claim C4 (amended), witness: the symbol `"AA/PL"` (containing a slash)
fails validation even after uppercasing and yields a pure 400. -/
theorem validation_rejects_before_io_witness :
    (ALLOWED_FUNCTIONS.contains (normalizeParam (some "OVERVIEW")) = false ∨
      SYMBOL_RE_test (normalizeParam (some "AA/PL")) = false) ∧
    ((GET_A (some "k") (some "OVERVIEW") (some "AA/PL") 5 .failure true [] []).resp.status = 400 ∧
     (GET_A (some "k") (some "OVERVIEW") (some "AA/PL") 5 .failure true [] []).resp.ok = false ∧
     (GET_A (some "k") (some "OVERVIEW") (some "AA/PL") 5 .failure true [] []).memCache = [] ∧
     (GET_A (some "k") (some "OVERVIEW") (some "AA/PL") 5 .failure true [] []).disk = [] ∧
     (GET_A (some "k") (some "OVERVIEW") (some "AA/PL") 5 .failure true [] []).calledUpstream = false ∧
     (GET_A (some "k") (some "OVERVIEW") (some "AA/PL") 5 .failure true [] []).readMem = false ∧
     (GET_A (some "k") (some "OVERVIEW") (some "AA/PL") 5 .failure true [] []).readDisk = false ∧
     (GET_A (some "k") (some "OVERVIEW") (some "AA/PL") 5 .failure true [] []).wroteDisk = false) :=
  ⟨Or.inr (by decide),
   validation_rejects_before_io "k" (some "OVERVIEW") (some "AA/PL") 5 .failure true [] []
     (Or.inr (by decide))⟩



/-- Claim C6: for every valid request, after a first successful upstream
call (upstream answers HTTP-ok JSON with no throttle or error marker,
against empty caches), every repeated request strictly within the
operation's TTL window is answered from memory with exactly the data of
the first call, and leaves the memory cache unchanged (so the property
persists across further repeats). -/
theorem memory_ttl_repeats (k : String) (fnRaw symbolRaw : Option String) (t0 : Int)
    (res : UpstreamResponse) (data : Json) (writeOk : Bool) (disk : Disk)
    (hfn : ALLOWED_FUNCTIONS.contains (normalizeParam fnRaw) = true)
    (hsym : SYMBOL_RE_test (normalizeParam symbolRaw) = true)
    (hdisk : readDiskCache (diskRead disk
      (diskFileName (normalizeParam fnRaw) (normalizeParam symbolRaw))) = none)
    (hbody : res.body = some data) (hok : res.httpOk = true)
    (ht : truthyOpt (throttleOf data) = false)
    (he : truthyOpt (jget data "Error Message") = false) :
    (GET_A (some k) fnRaw symbolRaw t0 (.response res) writeOk [] disk).resp.source =
      some "upstream" ∧
    (GET_A (some k) fnRaw symbolRaw t0 (.response res) writeOk [] disk).resp.data =
      some data ∧
    ∀ now' fetch' writeOk', now' < t0 + ttlMsOf (normalizeParam fnRaw) →
      (GET_A (some k) fnRaw symbolRaw now' fetch' writeOk'
          (GET_A (some k) fnRaw symbolRaw t0 (.response res) writeOk [] disk).memCache
          (GET_A (some k) fnRaw symbolRaw t0 (.response res) writeOk [] disk).disk).resp.source =
        some "memory" ∧
      (GET_A (some k) fnRaw symbolRaw now' fetch' writeOk'
          (GET_A (some k) fnRaw symbolRaw t0 (.response res) writeOk [] disk).memCache
          (GET_A (some k) fnRaw symbolRaw t0 (.response res) writeOk [] disk).disk).resp.data =
        some data ∧
      (GET_A (some k) fnRaw symbolRaw now' fetch' writeOk'
          (GET_A (some k) fnRaw symbolRaw t0 (.response res) writeOk [] disk).memCache
          (GET_A (some k) fnRaw symbolRaw t0 (.response res) writeOk [] disk).disk).memCache =
        (GET_A (some k) fnRaw symbolRaw t0 (.response res) writeOk [] disk).memCache := by
  have hrun1 : GET_A (some k) fnRaw symbolRaw t0 (.response res) writeOk [] disk =
      { resp := { baseResponse with
            ok := true
            cached := some false
            source := some "upstream"
            data := some data
            cacheControl := some ("public, max-age=0, s-maxage=" ++
              toString (ttlSeconds (normalizeParam fnRaw))) },
        memCache := memSet [] (cacheKey (normalizeParam fnRaw) (normalizeParam symbolRaw))
          { expiresAt := t0 + ttlMsOf (normalizeParam fnRaw), payload := some data },
        disk := writeDiskCache writeOk disk (normalizeParam fnRaw) (normalizeParam symbolRaw)
          (some data) t0,
        calledUpstream := true, readMem := true, readDisk := true, wroteDisk := true } := by
    rw [GET_A_valid_eq k fnRaw symbolRaw t0 (.response res) writeOk [] disk hfn hsym]
    rw [memStageA_miss (normalizeParam fnRaw) (normalizeParam symbolRaw)
      (cacheKey (normalizeParam fnRaw) (normalizeParam symbolRaw))
      (ttlMsOf (normalizeParam fnRaw)) t0 (.response res) writeOk [] disk rfl]
    rw [diskStageA_miss (normalizeParam fnRaw) (normalizeParam symbolRaw)
      (cacheKey (normalizeParam fnRaw) (normalizeParam symbolRaw))
      (ttlMsOf (normalizeParam fnRaw)) t0 (.response res) writeOk [] disk hdisk]
    exact upstreamA_success (normalizeParam fnRaw) (normalizeParam symbolRaw)
      (cacheKey (normalizeParam fnRaw) (normalizeParam symbolRaw))
      (ttlMsOf (normalizeParam fnRaw)) t0 res data writeOk [] disk none hbody hok ht he
  refine ⟨by rw [hrun1], by rw [hrun1], ?_⟩
  intro now' fetch' writeOk' hlt
  rw [hrun1]
  have hentry : memGet
      (memSet [] (cacheKey (normalizeParam fnRaw) (normalizeParam symbolRaw))
        ({ expiresAt := t0 + ttlMsOf (normalizeParam fnRaw), payload := some data } : CacheEntry))
      (cacheKey (normalizeParam fnRaw) (normalizeParam symbolRaw)) =
      some ({ expiresAt := t0 + ttlMsOf (normalizeParam fnRaw), payload := some data } : CacheEntry) :=
    assocGet_assocSet_self _ _ _
  have hrun2 : GET_A (some k) fnRaw symbolRaw now' fetch' writeOk'
      (memSet [] (cacheKey (normalizeParam fnRaw) (normalizeParam symbolRaw))
        { expiresAt := t0 + ttlMsOf (normalizeParam fnRaw), payload := some data })
      (writeDiskCache writeOk disk (normalizeParam fnRaw) (normalizeParam symbolRaw)
        (some data) t0) =
      { resp := { baseResponse with
            ok := true
            cached := some true
            source := some "memory"
            data := some data
            cacheControl := some "public, max-age=0, s-maxage=60" },
        memCache := memSet [] (cacheKey (normalizeParam fnRaw) (normalizeParam symbolRaw))
          { expiresAt := t0 + ttlMsOf (normalizeParam fnRaw), payload := some data },
        disk := writeDiskCache writeOk'
          (writeDiskCache writeOk disk (normalizeParam fnRaw) (normalizeParam symbolRaw)
            (some data) t0)
          (normalizeParam fnRaw) (normalizeParam symbolRaw) (some data) now',
        calledUpstream := false, readMem := true, readDisk := false, wroteDisk := true } := by
    rw [GET_A_valid_eq k fnRaw symbolRaw now' fetch' writeOk' _ _ hfn hsym]
    exact memStageA_hit _ _ _ _ _ _ _ _ _ _ hentry
      (by show t0 + ttlMsOf (normalizeParam fnRaw) > now'; omega)
  rw [hrun2]
  exact ⟨rfl, rfl, rfl⟩

/-- Claim C6, witness: a concrete first call for `TIME_SERIES_DAILY:MSFT`
at time 1000 followed by a repeat at time 2000. -/
theorem memory_ttl_repeats_witness :
    (ALLOWED_FUNCTIONS.contains (normalizeParam (some "TIME_SERIES_DAILY")) = true) ∧
    (SYMBOL_RE_test (normalizeParam (some "MSFT")) = true) ∧
    ((GET_A (some "k") (some "TIME_SERIES_DAILY") (some "MSFT") 1000
        (.response { httpOk := true, status := 200, body := some examplePayload })
        true [] []).resp.source = some "upstream" ∧
     (GET_A (some "k") (some "TIME_SERIES_DAILY") (some "MSFT") 1000
        (.response { httpOk := true, status := 200, body := some examplePayload })
        true [] []).resp.data = some examplePayload ∧
     ∀ now' fetch' writeOk', now' < 1000 + ttlMsOf (normalizeParam (some "TIME_SERIES_DAILY")) →
      (GET_A (some "k") (some "TIME_SERIES_DAILY") (some "MSFT") now' fetch' writeOk'
          (GET_A (some "k") (some "TIME_SERIES_DAILY") (some "MSFT") 1000
            (.response { httpOk := true, status := 200, body := some examplePayload })
            true [] []).memCache
          (GET_A (some "k") (some "TIME_SERIES_DAILY") (some "MSFT") 1000
            (.response { httpOk := true, status := 200, body := some examplePayload })
            true [] []).disk).resp.source = some "memory" ∧
      (GET_A (some "k") (some "TIME_SERIES_DAILY") (some "MSFT") now' fetch' writeOk'
          (GET_A (some "k") (some "TIME_SERIES_DAILY") (some "MSFT") 1000
            (.response { httpOk := true, status := 200, body := some examplePayload })
            true [] []).memCache
          (GET_A (some "k") (some "TIME_SERIES_DAILY") (some "MSFT") 1000
            (.response { httpOk := true, status := 200, body := some examplePayload })
            true [] []).disk).resp.data = some examplePayload ∧
      (GET_A (some "k") (some "TIME_SERIES_DAILY") (some "MSFT") now' fetch' writeOk'
          (GET_A (some "k") (some "TIME_SERIES_DAILY") (some "MSFT") 1000
            (.response { httpOk := true, status := 200, body := some examplePayload })
            true [] []).memCache
          (GET_A (some "k") (some "TIME_SERIES_DAILY") (some "MSFT") 1000
            (.response { httpOk := true, status := 200, body := some examplePayload })
            true [] []).disk).memCache =
        (GET_A (some "k") (some "TIME_SERIES_DAILY") (some "MSFT") 1000
            (.response { httpOk := true, status := 200, body := some examplePayload })
            true [] []).memCache) :=
  ⟨by decide, by decide,
   memory_ttl_repeats "k" (some "TIME_SERIES_DAILY") (some "MSFT") 1000
     { httpOk := true, status := 200, body := some examplePayload } examplePayload true []
     (by decide) (by decide) rfl rfl rfl rfl rfl⟩


/-- Claim C1, counterexample: a disk record can exist for the key while
the failure is still propagated. With a record whose payload is the JSON
number `0` (falsy), no fixture and no memory entry, a non-JSON upstream
body is answered with a 502 error even though the disk cache holds a
record for the key. -/
theorem fallback_precedence_counterexample :
    (readDiskCache (diskRead
        [(diskFileName "OVERVIEW" "AAPL",
          DiskFile.json (encodeDiskRecord 0 "OVERVIEW" "AAPL" (some (.num 0))))]
        (diskFileName "OVERVIEW" "AAPL"))).isSome = true ∧
    (GET_B (some "k") (some "OVERVIEW") (some "AAPL") 1000
        (.response { httpOk := true, status := 200, body := none }) true []
        [(diskFileName "OVERVIEW" "AAPL",
          DiskFile.json (encodeDiskRecord 0 "OVERVIEW" "AAPL" (some (.num 0))))]
        []).resp.ok = false ∧
    (GET_B (some "k") (some "OVERVIEW") (some "AAPL") 1000
        (.response { httpOk := true, status := 200, body := none }) true []
        [(diskFileName "OVERVIEW" "AAPL",
          DiskFile.json (encodeDiskRecord 0 "OVERVIEW" "AAPL" (some (.num 0))))]
        []).resp.status = 502 := by
  refine ⟨by decide, by decide, by decide⟩

/-- Claim C1, amended: on every upstream failure classification the
network-first route consults the fallback chain in the order disk, then
fixture, then memory, first match winning, where each tier counts as
available exactly when it holds a record with a present and truthy (in the
JS sense) payload; an entry whose payload is absent or falsy is skipped as
if the entry did not exist, and the failure is propagated as an error
(leaving the caches untouched) exactly when all three tiers are
unavailable in this sense. -/
theorem fallback_precedence (k : String) (fnRaw symbolRaw : Option String)
    (now : Int) (fetch : FetchOutcome) (writeOk : Bool)
    (mem : MemCache CacheEntryB) (disk fixtures : Disk)
    (hfn : ALLOWED_FUNCTIONS.contains (normalizeParam fnRaw) = true)
    (hsym : SYMBOL_RE_test (normalizeParam symbolRaw) = true)
    (hfail : isFailureOutcome fetch = true) :
    (∀ p, diskPayload disk (normalizeParam fnRaw) (normalizeParam symbolRaw) = some p →
      truthy p = true →
      (GET_B (some k) fnRaw symbolRaw now fetch writeOk mem disk fixtures).resp.ok = true ∧
      (GET_B (some k) fnRaw symbolRaw now fetch writeOk mem disk fixtures).resp.source =
        some "disk-stale" ∧
      (GET_B (some k) fnRaw symbolRaw now fetch writeOk mem disk fixtures).resp.data = some p) ∧
    (diskAvailable disk (normalizeParam fnRaw) (normalizeParam symbolRaw) = false →
      ∀ p, fixturePayload fixtures (normalizeParam fnRaw) (normalizeParam symbolRaw) = some p →
      truthy p = true →
      (GET_B (some k) fnRaw symbolRaw now fetch writeOk mem disk fixtures).resp.ok = true ∧
      (GET_B (some k) fnRaw symbolRaw now fetch writeOk mem disk fixtures).resp.source =
        some "fixture" ∧
      (GET_B (some k) fnRaw symbolRaw now fetch writeOk mem disk fixtures).resp.data = some p) ∧
    (diskAvailable disk (normalizeParam fnRaw) (normalizeParam symbolRaw) = false →
      fixtureAvailable fixtures (normalizeParam fnRaw) (normalizeParam symbolRaw) = false →
      ∀ p, memPayload mem (cacheKey (normalizeParam fnRaw) (normalizeParam symbolRaw)) = some p →
      truthy p = true →
      (GET_B (some k) fnRaw symbolRaw now fetch writeOk mem disk fixtures).resp.ok = true ∧
      (GET_B (some k) fnRaw symbolRaw now fetch writeOk mem disk fixtures).resp.source =
        some "memory" ∧
      (GET_B (some k) fnRaw symbolRaw now fetch writeOk mem disk fixtures).resp.data = some p) ∧
    (diskAvailable disk (normalizeParam fnRaw) (normalizeParam symbolRaw) = false →
      fixtureAvailable fixtures (normalizeParam fnRaw) (normalizeParam symbolRaw) = false →
      memAvailable mem (cacheKey (normalizeParam fnRaw) (normalizeParam symbolRaw)) = false →
      (GET_B (some k) fnRaw symbolRaw now fetch writeOk mem disk fixtures).resp.ok = false ∧
      (GET_B (some k) fnRaw symbolRaw now fetch writeOk mem disk fixtures).memCache = mem ∧
      (GET_B (some k) fnRaw symbolRaw now fetch writeOk mem disk fixtures).disk = disk) := by
  rw [GET_B_valid_eq k fnRaw symbolRaw now fetch writeOk mem disk fixtures hfn hsym]
  refine ⟨?_, ?_, ?_, ?_⟩
  · intro p hd htp
    obtain ⟨w, ra, heq⟩ := upstreamB_fail_disk (normalizeParam fnRaw) (normalizeParam symbolRaw)
      (cacheKey (normalizeParam fnRaw) (normalizeParam symbolRaw))
      (ttlMsOf (normalizeParam fnRaw)) now fetch writeOk mem disk fixtures p hfail hd htp
    rw [heq]
    exact ⟨rfl, rfl, rfl⟩
  · intro hdna p hf htp
    obtain ⟨w, ra, heq⟩ := upstreamB_fail_fixture (normalizeParam fnRaw) (normalizeParam symbolRaw)
      (cacheKey (normalizeParam fnRaw) (normalizeParam symbolRaw))
      (ttlMsOf (normalizeParam fnRaw)) now fetch writeOk mem disk fixtures p hfail hdna hf htp
    rw [heq]
    exact ⟨rfl, rfl, rfl⟩
  · intro hdna hfna p hm htp
    obtain ⟨w, heq⟩ := upstreamB_fail_mem (normalizeParam fnRaw) (normalizeParam symbolRaw)
      (cacheKey (normalizeParam fnRaw) (normalizeParam symbolRaw))
      (ttlMsOf (normalizeParam fnRaw)) now fetch writeOk mem disk fixtures p hfail hdna hfna hm htp
    rw [heq]
    exact ⟨rfl, rfl, rfl⟩
  · intro hdna hfna hmna
    rw [upstreamB_fail_none (normalizeParam fnRaw) (normalizeParam symbolRaw)
      (cacheKey (normalizeParam fnRaw) (normalizeParam symbolRaw))
      (ttlMsOf (normalizeParam fnRaw)) now fetch writeOk mem disk fixtures hfail hdna hfna hmna]
    refine ⟨?_, rfl, rfl⟩
    rcases fetch with ⟨httpOk, status, body⟩ | _ | _
    · cases body with
      | none => rfl
      | some data =>
        simp only [isFailureOutcome] at hfail
        unfold upstreamBError
        dsimp only
        cases ht : truthyOpt (throttleOf data) with
        | true => rw [if_pos rfl]
        | false =>
          cases he : truthyOpt (jget data "Error Message") with
          | true => rw [if_neg (by simp), if_pos rfl]; rfl
          | false => rw [if_neg (by simp), if_neg (by simp)]; rfl
    · rfl
    · rfl

/-- Claim C1 (amended), witness: with a stale-but-truthy disk record, a
timed-out upstream call is answered from the disk tier. -/
theorem fallback_precedence_witness :
    (ALLOWED_FUNCTIONS.contains (normalizeParam (some "OVERVIEW")) = true) ∧
    (SYMBOL_RE_test (normalizeParam (some "AAPL")) = true) ∧
    (isFailureOutcome .abort = true) ∧
    (diskPayload exampleStaleDisk (normalizeParam (some "OVERVIEW"))
      (normalizeParam (some "AAPL")) = some examplePayload) ∧
    (truthy examplePayload = true) ∧
    ((GET_B (some "k") (some "OVERVIEW") (some "AAPL") 100000000 .abort true []
        exampleStaleDisk []).resp.ok = true ∧
     (GET_B (some "k") (some "OVERVIEW") (some "AAPL") 100000000 .abort true []
        exampleStaleDisk []).resp.source = some "disk-stale" ∧
     (GET_B (some "k") (some "OVERVIEW") (some "AAPL") 100000000 .abort true []
        exampleStaleDisk []).resp.data = some examplePayload) :=
  ⟨by decide, by decide, rfl, rfl, rfl,
   (fallback_precedence "k" (some "OVERVIEW") (some "AAPL") 100000000 .abort true []
      exampleStaleDisk [] (by decide) (by decide) rfl).1 examplePayload rfl rfl⟩



/-- Claim C3, counterexample: upstream throttled and a disk record exists
for the key, yet the response is a 429 error, because the record's payload
(the JSON number `0`) is falsy and the fallback guard
`if (diskRecord?.payload)` skips it. -/
theorem throttle_disk_stale_counterexample :
    (readDiskCache (diskRead
        [(diskFileName "OVERVIEW" "AAPL",
          DiskFile.json (encodeDiskRecord 0 "OVERVIEW" "AAPL" (some (.num 0))))]
        (diskFileName "OVERVIEW" "AAPL"))).isSome = true ∧
    (GET_B (some "k") (some "OVERVIEW") (some "AAPL") 1000 exampleThrottle true []
        [(diskFileName "OVERVIEW" "AAPL",
          DiskFile.json (encodeDiskRecord 0 "OVERVIEW" "AAPL" (some (.num 0))))]
        []).resp.ok = false ∧
    (GET_B (some "k") (some "OVERVIEW") (some "AAPL") 1000 exampleThrottle true []
        [(diskFileName "OVERVIEW" "AAPL",
          DiskFile.json (encodeDiskRecord 0 "OVERVIEW" "AAPL" (some (.num 0))))]
        []).resp.status = 429 := by
  refine ⟨by decide, by decide, by decide⟩

/-- Claim C3, amended: for every valid request whose upstream response
carries a truthy throttle marker (`Note`/`Information`) and whose key has
a disk record with a present, truthy payload (of any age), the response
has `ok = true`, `stale = true`, `cached = true`, `source = "disk-stale"`
and its data equals the record's payload. -/
theorem throttle_disk_stale (k : String) (fnRaw symbolRaw : Option String)
    (now : Int) (res : UpstreamResponse) (data : Json) (writeOk : Bool)
    (mem : MemCache CacheEntryB) (disk fixtures : Disk) (p : Json)
    (hfn : ALLOWED_FUNCTIONS.contains (normalizeParam fnRaw) = true)
    (hsym : SYMBOL_RE_test (normalizeParam symbolRaw) = true)
    (hbody : res.body = some data)
    (ht : truthyOpt (throttleOf data) = true)
    (hd : diskPayload disk (normalizeParam fnRaw) (normalizeParam symbolRaw) = some p)
    (htp : truthy p = true) :
    (GET_B (some k) fnRaw symbolRaw now (.response res) writeOk mem disk fixtures).resp.ok =
      true ∧
    (GET_B (some k) fnRaw symbolRaw now (.response res) writeOk mem disk fixtures).resp.stale =
      some true ∧
    (GET_B (some k) fnRaw symbolRaw now (.response res) writeOk mem disk fixtures).resp.cached =
      some true ∧
    (GET_B (some k) fnRaw symbolRaw now (.response res) writeOk mem disk
      fixtures).resp.source = some "disk-stale" ∧
    (GET_B (some k) fnRaw symbolRaw now (.response res) writeOk mem disk fixtures).resp.data =
      some p := by
  rw [GET_B_valid_eq k fnRaw symbolRaw now (.response res) writeOk mem disk fixtures hfn hsym]
  have hfail : isFailureOutcome (.response res) = true := by
    rcases res with ⟨httpOk, status, body⟩
    simp only at hbody
    subst hbody
    simp [isFailureOutcome, ht]
  obtain ⟨w, ra, heq⟩ := upstreamB_fail_disk (normalizeParam fnRaw) (normalizeParam symbolRaw)
    (cacheKey (normalizeParam fnRaw) (normalizeParam symbolRaw))
    (ttlMsOf (normalizeParam fnRaw)) now (.response res) writeOk mem disk fixtures p hfail hd htp
  rw [heq]
  exact ⟨rfl, rfl, rfl, rfl, rfl⟩

/-- Claim C3 (amended), witness: a throttled upstream response with a
stale disk record for `OVERVIEW:AAPL`. -/
theorem throttle_disk_stale_witness :
    (ALLOWED_FUNCTIONS.contains (normalizeParam (some "OVERVIEW")) = true) ∧
    (SYMBOL_RE_test (normalizeParam (some "AAPL")) = true) ∧
    (truthyOpt (throttleOf (.obj [("Note", .str "rate limit")])) = true) ∧
    (diskPayload exampleStaleDisk (normalizeParam (some "OVERVIEW"))
      (normalizeParam (some "AAPL")) = some examplePayload) ∧
    ((GET_B (some "k") (some "OVERVIEW") (some "AAPL") 100000000 exampleThrottle true []
        exampleStaleDisk []).resp.ok = true ∧
     (GET_B (some "k") (some "OVERVIEW") (some "AAPL") 100000000 exampleThrottle true []
        exampleStaleDisk []).resp.stale = some true ∧
     (GET_B (some "k") (some "OVERVIEW") (some "AAPL") 100000000 exampleThrottle true []
        exampleStaleDisk []).resp.cached = some true ∧
     (GET_B (some "k") (some "OVERVIEW") (some "AAPL") 100000000 exampleThrottle true []
        exampleStaleDisk []).resp.source = some "disk-stale" ∧
     (GET_B (some "k") (some "OVERVIEW") (some "AAPL") 100000000 exampleThrottle true []
        exampleStaleDisk []).resp.data = some examplePayload) :=
  ⟨by decide, by decide, rfl, rfl,
   throttle_disk_stale "k" (some "OVERVIEW") (some "AAPL") 100000000
     { httpOk := true, status := 200, body := some (.obj [("Note", .str "rate limit")]) }
     (.obj [("Note", .str "rate limit")]) true [] exampleStaleDisk [] examplePayload
     (by decide) (by decide) rfl rfl rfl rfl⟩

/-- Claim C7: every upstream failure answered from a stale disk record
also rehydrates the memory cache: the resulting memory entry for the key
holds exactly the disk payload (with a fresh full-TTL expiry), so a later
request can hit the memory tier. -/
theorem stale_fallback_rehydrates (k : String) (fnRaw symbolRaw : Option String)
    (now : Int) (fetch : FetchOutcome) (writeOk : Bool)
    (mem : MemCache CacheEntryB) (disk fixtures : Disk) (p : Json)
    (hfn : ALLOWED_FUNCTIONS.contains (normalizeParam fnRaw) = true)
    (hsym : SYMBOL_RE_test (normalizeParam symbolRaw) = true)
    (hfail : isFailureOutcome fetch = true)
    (hd : diskPayload disk (normalizeParam fnRaw) (normalizeParam symbolRaw) = some p)
    (htp : truthy p = true) :
    (GET_B (some k) fnRaw symbolRaw now fetch writeOk mem disk fixtures).resp.data = some p ∧
    (GET_B (some k) fnRaw symbolRaw now fetch writeOk mem disk fixtures).resp.source =
      some "disk-stale" ∧
    memGet (GET_B (some k) fnRaw symbolRaw now fetch writeOk mem disk fixtures).memCache
      (cacheKey (normalizeParam fnRaw) (normalizeParam symbolRaw)) =
      some { expiresAt := now + ttlMsOf (normalizeParam fnRaw)
             payload := some p
             source := "disk" } := by
  rw [GET_B_valid_eq k fnRaw symbolRaw now fetch writeOk mem disk fixtures hfn hsym]
  obtain ⟨w, ra, heq⟩ := upstreamB_fail_disk (normalizeParam fnRaw) (normalizeParam symbolRaw)
    (cacheKey (normalizeParam fnRaw) (normalizeParam symbolRaw))
    (ttlMsOf (normalizeParam fnRaw)) now fetch writeOk mem disk fixtures p hfail hd htp
  rw [heq]
  exact ⟨rfl, rfl, assocGet_assocSet_self _ _ _⟩

/-- Claim C7, witness: a throttled upstream call with a stale disk record
rehydrates the memory cache for `OVERVIEW:AAPL`. -/
theorem stale_fallback_rehydrates_witness :
    (ALLOWED_FUNCTIONS.contains (normalizeParam (some "OVERVIEW")) = true) ∧
    (SYMBOL_RE_test (normalizeParam (some "AAPL")) = true) ∧
    (isFailureOutcome exampleThrottle = true) ∧
    (diskPayload exampleStaleDisk (normalizeParam (some "OVERVIEW"))
      (normalizeParam (some "AAPL")) = some examplePayload) ∧
    ((GET_B (some "k") (some "OVERVIEW") (some "AAPL") 100000000 exampleThrottle true []
        exampleStaleDisk []).resp.data = some examplePayload ∧
     (GET_B (some "k") (some "OVERVIEW") (some "AAPL") 100000000 exampleThrottle true []
        exampleStaleDisk []).resp.source = some "disk-stale" ∧
     memGet (GET_B (some "k") (some "OVERVIEW") (some "AAPL") 100000000 exampleThrottle true []
        exampleStaleDisk []).memCache
        (cacheKey (normalizeParam (some "OVERVIEW")) (normalizeParam (some "AAPL"))) =
       some { expiresAt := 100000000 + ttlMsOf (normalizeParam (some "OVERVIEW"))
              payload := some examplePayload
              source := "disk" }) :=
  ⟨by decide, by decide, rfl, rfl,
   stale_fallback_rehydrates "k" (some "OVERVIEW") (some "AAPL") 100000000 exampleThrottle
     true [] exampleStaleDisk [] examplePayload (by decide) (by decide) rfl rfl rfl⟩



/-- Status and Retry-After the spec asserts for each terminal failure
(claim C5's mapping, transcribed from the spec's words for comparison with
the code): throttle marker → 429 with the 1-second default Retry-After;
malformed body, error marker or HTTP-not-ok → 502; transport timeout →
504; no verdict for classifications the claim does not cover. -/
structure SpecFailureVerdict where
  status : Nat
  retryAfter : Option String

/-- The claim-side status mapping (see `SpecFailureVerdict`). -/
def specFailureVerdict : FetchOutcome → Option SpecFailureVerdict
  | .abort => some { status := 504, retryAfter := none }
  | .failure => none
  | .response res =>
    match res.body with
    | none => some { status := 502, retryAfter := none }
    | some data =>
      if truthyOpt (throttleOf data) then some { status := 429, retryAfter := some "1" }
      else if truthyOpt (jget data "Error Message") then
        some { status := 502, retryAfter := none }
      else if !res.httpOk then some { status := 502, retryAfter := none }
      else none

/-- Claim C5: when no fallback tier is available, a terminal failure is
propagated with exactly the status the spec asserts — 429 with the default
1-second Retry-After for a throttle marker, 502 for a malformed body, an
upstream error marker or an HTTP-not-ok status, and 504 for a transport
timeout — and an `ok = false` envelope. -/
theorem no_fallback_terminal_statuses (k : String) (fnRaw symbolRaw : Option String)
    (now : Int) (fetch : FetchOutcome) (writeOk : Bool)
    (mem : MemCache CacheEntryB) (disk fixtures : Disk) (v : SpecFailureVerdict)
    (hfn : ALLOWED_FUNCTIONS.contains (normalizeParam fnRaw) = true)
    (hsym : SYMBOL_RE_test (normalizeParam symbolRaw) = true)
    (hd : diskAvailable disk (normalizeParam fnRaw) (normalizeParam symbolRaw) = false)
    (hf : fixtureAvailable fixtures (normalizeParam fnRaw) (normalizeParam symbolRaw) = false)
    (hm : memAvailable mem (cacheKey (normalizeParam fnRaw) (normalizeParam symbolRaw)) = false)
    (hv : specFailureVerdict fetch = some v) :
    (GET_B (some k) fnRaw symbolRaw now fetch writeOk mem disk fixtures).resp.ok = false ∧
    (GET_B (some k) fnRaw symbolRaw now fetch writeOk mem disk fixtures).resp.status =
      v.status ∧
    (GET_B (some k) fnRaw symbolRaw now fetch writeOk mem disk fixtures).resp.retryAfter =
      v.retryAfter := by
  rw [GET_B_valid_eq k fnRaw symbolRaw now fetch writeOk mem disk fixtures hfn hsym]
  have hfail : isFailureOutcome fetch = true := by
    rcases fetch with ⟨httpOk, status, body⟩ | _ | _
    · cases body with
      | none => rfl
      | some data =>
        simp only [specFailureVerdict] at hv
        simp only [isFailureOutcome]
        cases ht : truthyOpt (throttleOf data) with
        | true => simp [ht]
        | false =>
          rw [if_neg (by simp [ht])] at hv
          cases he : truthyOpt (jget data "Error Message") with
          | true => simp [he]
          | false =>
            rw [if_neg (by simp [he])] at hv
            cases ho : httpOk with
            | true => rw [if_neg (by simp [ho])] at hv; cases hv
            | false => simp [ho]
    · rfl
    · simp only [specFailureVerdict] at hv; cases hv
  rw [upstreamB_fail_none (normalizeParam fnRaw) (normalizeParam symbolRaw)
    (cacheKey (normalizeParam fnRaw) (normalizeParam symbolRaw))
    (ttlMsOf (normalizeParam fnRaw)) now fetch writeOk mem disk fixtures hfail hd hf hm]
  rcases fetch with ⟨httpOk, status, body⟩ | _ | _
  · cases body with
    | none =>
      simp only [specFailureVerdict] at hv
      injection hv with hv
      subst hv
      exact ⟨rfl, rfl, rfl⟩
    | some data =>
      simp only [specFailureVerdict] at hv
      unfold upstreamBError
      dsimp only
      cases ht : truthyOpt (throttleOf data) with
      | true =>
        rw [ht, if_pos rfl] at hv
        rw [if_pos rfl]
        injection hv with hv
        subst hv
        exact ⟨rfl, rfl, rfl⟩
      | false =>
        rw [ht, if_neg (by decide)] at hv
        rw [if_neg (by decide)]
        cases he : truthyOpt (jget data "Error Message") with
        | true =>
          rw [he, if_pos rfl] at hv
          rw [if_pos rfl]
          injection hv with hv
          subst hv
          exact ⟨rfl, rfl, rfl⟩
        | false =>
          rw [he, if_neg (by decide)] at hv
          rw [if_neg (by decide)]
          cases ho : httpOk with
          | true => rw [ho, if_neg (by decide)] at hv; cases hv
          | false =>
            rw [ho, if_pos (by decide)] at hv
            injection hv with hv
            subst hv
            exact ⟨rfl, rfl, rfl⟩
  · simp only [specFailureVerdict] at hv
    injection hv with hv
    subst hv
    exact ⟨rfl, rfl, rfl⟩
  · simp only [specFailureVerdict] at hv
    cases hv

/-- Claim C5, witness: a throttled upstream call with all fallback tiers
empty yields a 429 with `Retry-After: 1`. -/
theorem no_fallback_terminal_statuses_witness :
    (ALLOWED_FUNCTIONS.contains (normalizeParam (some "OVERVIEW")) = true) ∧
    (SYMBOL_RE_test (normalizeParam (some "AAPL")) = true) ∧
    (diskAvailable [] (normalizeParam (some "OVERVIEW")) (normalizeParam (some "AAPL")) = false) ∧
    (fixtureAvailable [] (normalizeParam (some "OVERVIEW")) (normalizeParam (some "AAPL")) = false) ∧
    (memAvailable [] (cacheKey (normalizeParam (some "OVERVIEW"))
      (normalizeParam (some "AAPL"))) = false) ∧
    (specFailureVerdict exampleThrottle =
      some { status := 429, retryAfter := some "1" }) ∧
    ((GET_B (some "k") (some "OVERVIEW") (some "AAPL") 5 exampleThrottle true [] [] []).resp.ok =
      false ∧
     (GET_B (some "k") (some "OVERVIEW") (some "AAPL") 5 exampleThrottle true [] []
        []).resp.status = 429 ∧
     (GET_B (some "k") (some "OVERVIEW") (some "AAPL") 5 exampleThrottle true [] []
        []).resp.retryAfter = some "1") :=
  ⟨by decide, by decide, rfl, rfl, rfl, rfl,
   no_fallback_terminal_statuses "k" (some "OVERVIEW") (some "AAPL") 5 exampleThrottle true
     [] [] [] { status := 429, retryAfter := some "1" } (by decide) (by decide) rfl rfl rfl rfl⟩



theorem diskStageA_fresh (fn symbol key : String) (ttlMs now : Int) (fetch : FetchOutcome)
    (writeOk : Bool) (mem : MemCache CacheEntry) (disk : Disk) (r : DiskCacheRecord)
    (hrec : readDiskCache (diskRead disk (diskFileName fn symbol)) = some r)
    (hfresh : now - r.savedAt ≤ ttlMs) :
    diskStageA fn symbol key ttlMs now fetch writeOk mem disk =
      { resp := { baseResponse with
            ok := true
            cached := some true
            source := some "disk"
            data := r.payload
            cacheControl := some ("public, max-age=0, s-maxage=" ++ toString (ttlSeconds fn)) },
        memCache := memSet mem key { expiresAt := now + ttlMs, payload := r.payload },
        disk := disk,
        calledUpstream := false, readMem := true, readDisk := true, wroteDisk := false } := by
  unfold diskStageA
  rw [hrec]
  dsimp only
  rw [if_pos hfresh]

/-- Claim C10, counterexample: after a stale disk payload is served as a
fallback (rehydrating the memory cache with a full-TTL expiry), a
subsequent request for the same key well within that TTL does not return
`source="memory"`: the network-first handler consults upstream and the
disk tier first, so the repeat is again `source="disk-stale"` with a stale
flag. -/
theorem rehydration_counterexample :
    (GET_B (some "k") (some "OVERVIEW") (some "AAPL") 100000000 exampleThrottle true []
        exampleStaleDisk []).resp.source = some "disk-stale" ∧
    (memGet (GET_B (some "k") (some "OVERVIEW") (some "AAPL") 100000000 exampleThrottle true []
        exampleStaleDisk []).memCache
      (cacheKey "OVERVIEW" "AAPL")).isSome = true ∧
    (GET_B (some "k") (some "OVERVIEW") (some "AAPL") (100000000 + 5000) exampleThrottle true
        (GET_B (some "k") (some "OVERVIEW") (some "AAPL") 100000000 exampleThrottle true []
          exampleStaleDisk []).memCache
        (GET_B (some "k") (some "OVERVIEW") (some "AAPL") 100000000 exampleThrottle true []
          exampleStaleDisk []).disk
        []).resp.source = some "disk-stale" ∧
    (GET_B (some "k") (some "OVERVIEW") (some "AAPL") (100000000 + 5000) exampleThrottle true
        (GET_B (some "k") (some "OVERVIEW") (some "AAPL") 100000000 exampleThrottle true []
          exampleStaleDisk []).memCache
        (GET_B (some "k") (some "OVERVIEW") (some "AAPL") 100000000 exampleThrottle true []
          exampleStaleDisk []).disk
        []).resp.stale = some true := by
  refine ⟨by decide, by decide, by decide, by decide⟩

/-- Claim C10, amended: every memory-cache rehydration from a non-upstream
source sets the entry's expiry to `now` plus the full operation TTL rather
than deriving it from the record's `savedAt`: a fresh disk hit in the
cache-first handler stores `expiresAt = now + ttl`, and a stale-disk
fallback in the fallback orchestrator stores the stale payload with
`expiresAt = now + ttl` even though the payload's age already exceeds the
TTL; subsequent requests, however, only see that memory entry through
whatever lookup path their handler has (the network-first handler keeps
answering from upstream or disk first). -/
theorem rehydration_uses_full_ttl :
    (∀ (k : String) (fnRaw symbolRaw : Option String) (now : Int) (fetch : FetchOutcome)
      (writeOk : Bool) (mem : MemCache CacheEntry) (disk : Disk) (r : DiskCacheRecord),
      ALLOWED_FUNCTIONS.contains (normalizeParam fnRaw) = true →
      SYMBOL_RE_test (normalizeParam symbolRaw) = true →
      memGet mem (cacheKey (normalizeParam fnRaw) (normalizeParam symbolRaw)) = none →
      readDiskCache (diskRead disk
        (diskFileName (normalizeParam fnRaw) (normalizeParam symbolRaw))) = some r →
      now - r.savedAt ≤ ttlMsOf (normalizeParam fnRaw) →
      memGet (GET_A (some k) fnRaw symbolRaw now fetch writeOk mem disk).memCache
        (cacheKey (normalizeParam fnRaw) (normalizeParam symbolRaw)) =
        some { expiresAt := now + ttlMsOf (normalizeParam fnRaw), payload := r.payload }) ∧
    (∀ (k : String) (fnRaw symbolRaw : Option String) (now : Int) (fetch : FetchOutcome)
      (writeOk : Bool) (mem : MemCache CacheEntryB) (disk fixtures : Disk)
      (r : DiskCacheRecord) (p : Json),
      ALLOWED_FUNCTIONS.contains (normalizeParam fnRaw) = true →
      SYMBOL_RE_test (normalizeParam symbolRaw) = true →
      isFailureOutcome fetch = true →
      readDiskCache (diskRead disk
        (diskFileName (normalizeParam fnRaw) (normalizeParam symbolRaw))) = some r →
      r.payload = some p →
      truthy p = true →
      ttlMsOf (normalizeParam fnRaw) < now - r.savedAt →
      memGet (GET_B (some k) fnRaw symbolRaw now fetch writeOk mem disk fixtures).memCache
        (cacheKey (normalizeParam fnRaw) (normalizeParam symbolRaw)) =
        some { expiresAt := now + ttlMsOf (normalizeParam fnRaw)
               payload := some p
               source := "disk" }) := by
  constructor
  · intro k fnRaw symbolRaw now fetch writeOk mem disk r hfn hsym hmem hrec hfresh
    rw [GET_A_valid_eq k fnRaw symbolRaw now fetch writeOk mem disk hfn hsym]
    rw [memStageA_miss (normalizeParam fnRaw) (normalizeParam symbolRaw)
      (cacheKey (normalizeParam fnRaw) (normalizeParam symbolRaw))
      (ttlMsOf (normalizeParam fnRaw)) now fetch writeOk mem disk hmem]
    rw [diskStageA_fresh (normalizeParam fnRaw) (normalizeParam symbolRaw)
      (cacheKey (normalizeParam fnRaw) (normalizeParam symbolRaw))
      (ttlMsOf (normalizeParam fnRaw)) now fetch writeOk mem disk r hrec hfresh]
    exact assocGet_assocSet_self _ _ _
  · intro k fnRaw symbolRaw now fetch writeOk mem disk fixtures r p hfn hsym hfail hrec hp htp hstale
    rw [GET_B_valid_eq k fnRaw symbolRaw now fetch writeOk mem disk fixtures hfn hsym]
    have hd : diskPayload disk (normalizeParam fnRaw) (normalizeParam symbolRaw) = some p := by
      unfold diskPayload
      rw [hrec]
      simp only [Option.some_bind]
      exact hp
    obtain ⟨w, ra, heq⟩ := upstreamB_fail_disk (normalizeParam fnRaw) (normalizeParam symbolRaw)
      (cacheKey (normalizeParam fnRaw) (normalizeParam symbolRaw))
      (ttlMsOf (normalizeParam fnRaw)) now fetch writeOk mem disk fixtures p hfail hd htp
    rw [heq]
    exact assocGet_assocSet_self _ _ _

/-- Claim C10 (amended), witness: a fresh disk hit at time 100 and a stale
fallback at time 100000000, both rehydrating with a full-TTL expiry. -/
theorem rehydration_uses_full_ttl_witness :
    (ALLOWED_FUNCTIONS.contains (normalizeParam (some "OVERVIEW")) = true) ∧
    (SYMBOL_RE_test (normalizeParam (some "AAPL")) = true) ∧
    ((100 : Int) - 95 ≤ ttlMsOf (normalizeParam (some "OVERVIEW"))) ∧
    (memGet (GET_A (some "k") (some "OVERVIEW") (some "AAPL") 100 .failure true []
        [(diskFileName "OVERVIEW" "AAPL",
          .json (encodeDiskRecord 95 "OVERVIEW" "AAPL" (some examplePayload)))]).memCache
      (cacheKey (normalizeParam (some "OVERVIEW")) (normalizeParam (some "AAPL"))) =
      some { expiresAt := 100 + ttlMsOf (normalizeParam (some "OVERVIEW"))
             payload := some examplePayload }) ∧
    (ttlMsOf (normalizeParam (some "OVERVIEW")) < (100000000 : Int) - 0) ∧
    (memGet (GET_B (some "k") (some "OVERVIEW") (some "AAPL") 100000000 exampleThrottle true []
        exampleStaleDisk []).memCache
      (cacheKey (normalizeParam (some "OVERVIEW")) (normalizeParam (some "AAPL"))) =
      some { expiresAt := 100000000 + ttlMsOf (normalizeParam (some "OVERVIEW"))
             payload := some examplePayload
             source := "disk" }) :=
  ⟨by decide, by decide, by decide,
   rehydration_uses_full_ttl.1 "k" (some "OVERVIEW") (some "AAPL") 100 .failure true []
     [(diskFileName "OVERVIEW" "AAPL",
       .json (encodeDiskRecord 95 "OVERVIEW" "AAPL" (some examplePayload)))]
     { savedAt := 95, payload := some examplePayload }
     (by decide) (by decide) rfl rfl (by decide),
   by decide,
   rehydration_uses_full_ttl.2 "k" (some "OVERVIEW") (some "AAPL") 100000000 exampleThrottle
     true [] exampleStaleDisk []
     { savedAt := 0, payload := some examplePayload } examplePayload
     (by decide) (by decide) rfl rfl rfl rfl (by decide)⟩

end AvProxy
